import Mathlib

/-!
Verification of the presigned-URL issuance backend of the Multi-Cloud
Image Upload repository.

The route handlers under src/app/api are shallowly embedded as pure Lean
functions.  Each handler takes
  - the environment variables its module-level initialization reads
    (modelled as Option String fields; a JS falsy check treats both an
    absent variable and the empty string as missing),
  - the parsed JSON request body (fields as Option values, mirroring
    destructuring of possibly-absent JSON fields),
  - the outcome of the one provider-SDK interaction the handler would
    perform (an Except value: ok result or thrown error message),
and returns the HTTP response (status plus JSON body, with JSON objects
modelled as ordered field lists, matching JSON serialization of object
literals) together with the list of provider-SDK calls the handler
performed, in order.  A handler that returns before reaching the SDK
interaction performs no calls, so the recorded list is empty and the
Except argument is unused.

CORS handling (corsMiddleware / addCorsHeaders) only short-circuits
OPTIONS requests and appends headers; it never changes a response status
or body, so it is not modelled.  Request-body JSON parse failures are not
modelled: bodies arrive already destructured.
-/

namespace MultiCloud

/-- JSON values, with objects as ordered association lists (mirrors the
serialization of TS object literals by NextResponse.json). -/
inductive Js where
  | s (v : String)
  | n (v : Int)
  | arr (elems : List Js)
  | obj (fields : List (String × Js))

/-- Lookup of a top-level field of a JSON object. -/
def Js.getField : Js → String → Option Js
  | .obj fields, k => fields.lookup k
  | _, _ => none

/-- The ordered list of top-level field names of a JSON object. -/
def Js.fieldNames : Js → List String
  | .obj fields => fields.map Prod.fst
  | _ => []

/-- An HTTP response: status code and JSON body. -/
structure Resp where
  status : Nat
  body : Js

/-- The three cloud providers. -/
inductive Provider where
  | aws
  | gcp
  | azure
deriving DecidableEq, Repr

/-- A call made to a provider SDK (or to its local signing machinery).
Recording these lets theorems state that a handler made no provider call,
or exactly which call it made.  Time-limited signing calls record the
validity window in seconds. -/
inductive SdkCall where
  | signUpload (p : Provider) (bucket key contentType : String) (expiresSec : Nat)
  | signDownload (p : Provider) (bucket key : String) (expiresSec : Nat)
  | signDelete (p : Provider) (bucket key : String) (expiresSec : Nat)
  | listObjects (p : Provider) (bucket : String)
  | existsObject (p : Provider) (bucket key : String)
  | deleteObject (p : Provider) (bucket key : String)
deriving DecidableEq, Repr

/-- JS truthiness of a possibly-absent string: an absent value and the
empty string are falsy, every other string is truthy. -/
def strTruthy : Option String → Bool
  | none => false
  | some v => !(v == "")

/-- JS truthiness of a possibly-absent number: absent and zero are falsy. -/
def numTruthy : Option Int → Bool
  | none => false
  | some v => !(v == 0)

/-- Body of an upload-issuance request: { fileName, fileType, fileSize }. -/
structure UploadBody where
  fileName : Option String
  fileType : Option String
  fileSize : Option Int
deriving DecidableEq, Repr

/-- Body of a download- or delete-issuance request: { fileName }. -/
structure KeyBody where
  fileName : Option String
deriving DecidableEq, Repr

/-- Body of an upload-completion notice: { fileName, fileSize, uploadTime }. -/
structure CompletionBody where
  fileName : Option String
  fileSize : Option Int
  uploadTime : Option String
deriving DecidableEq, Repr

/-- Response body { error } (client-input errors and the
client-not-initialized configuration error). -/
def errBody (msg : String) : Js := .obj [("error", .s msg)]

/-- Response body { error, details } (catch blocks around SDK failures). -/
def errDetailsBody (msg details : String) : Js :=
  .obj [("error", .s msg), ("details", .s details)]

/-- Response body of a successful issuance:
{ presignedUrl, fileName, expiresIn, message }. -/
def issuanceBody (url key : String) (expires : Int) (msg : String) : Js :=
  .obj [("presignedUrl", .s url), ("fileName", .s key),
        ("expiresIn", .n expires), ("message", .s msg)]

/-- The object key derived for uploads: a millisecond timestamp, a
hyphen, and the client-supplied file name (the template literal
`${timestamp}-${fileName}`). -/
def uniqueObjectKey (timestamp : Nat) (fileName : String) : String :=
  toString timestamp ++ "-" ++ fileName

/-- The content-type allow list of the AWS upload route. -/
def allowedTypes : List String :=
  ["image/jpeg", "image/png", "image/gif", "image/webp", "image/svg+xml"]

/-- The size ceiling of the AWS upload route: 10 * 1024 * 1024 bytes. -/
def maxSize : Int := 10 * 1024 * 1024

/-! ## AWS routes (src/app/api/aws) -/

/-- Environment variables read by every AWS route module. -/
structure AwsEnv where
  region : Option String
  accessKeyId : Option String
  secretAccessKey : Option String
  s3Bucket : Option String
deriving DecidableEq, Repr

/-- The configuration produced by a successful validateAwsEnv. -/
structure AwsConfig where
  region : String
  accessKeyId : String
  secretAccessKey : String
  bucketName : String
deriving DecidableEq, Repr

/-- validateAwsEnv: throws unless AWS_REGION, AWS_ACCESS_KEY_ID,
AWS_SECRET_ACCESS_KEY and AWS_S3_BUCKET are all truthy.  The surrounding
try/catch at module load turns a throw into an uninitialized client, so
the whole initialization is modelled as an Option. -/
def validateAwsEnv (e : AwsEnv) : Option AwsConfig :=
  if strTruthy e.region && strTruthy e.accessKeyId &&
      strTruthy e.secretAccessKey && strTruthy e.s3Bucket then
    some { region := e.region.getD "", accessKeyId := e.accessKeyId.getD "",
           secretAccessKey := e.secretAccessKey.getD "",
           bucketName := e.s3Bucket.getD "" }
  else none

/-- POST of src/app/api/aws/aws-post/route.ts: issue a presigned upload
URL.  Checks client initialization, required fields, the image-type allow
list and the size ceiling, derives the timestamped key, then signs a
PutObject command for 3600 seconds. -/
def awsPostRoute (env : AwsEnv) (body : UploadBody) (now : Nat)
    (signResult : Except String String) : Resp × List SdkCall :=
  match validateAwsEnv env with
  | none =>
    (⟨500, errBody "AWS client not initialized. Please check environment variables."⟩, [])
  | some cfg =>
    if !(strTruthy body.fileName && strTruthy body.fileType) then
      (⟨400, errBody "Missing required fields: fileName and fileType are required"⟩, [])
    else if !(allowedTypes.contains (body.fileType.getD "")) then
      (⟨400, errBody "Invalid file type. Only image files are allowed."⟩, [])
    else if numTruthy body.fileSize && body.fileSize.getD 0 > maxSize then
      (⟨400, errBody "File size too large. Maximum size is 10MB."⟩, [])
    else
      let uniqueFileName := uniqueObjectKey now (body.fileName.getD "")
      let call := SdkCall.signUpload .aws cfg.bucketName uniqueFileName
        (body.fileType.getD "") 3600
      match signResult with
      | .ok url =>
        (⟨200, issuanceBody url uniqueFileName 3600
          "Presigned upload URL generated successfully"⟩, [call])
      | .error e =>
        (⟨500, errDetailsBody "Failed to generate presigned upload URL" e⟩, [call])

/-- POST of the AWS download route: issue a presigned GetObject URL
valid for 900 seconds. -/
def awsDownloadRoute (env : AwsEnv) (body : KeyBody)
    (signResult : Except String String) : Resp × List SdkCall :=
  match validateAwsEnv env with
  | none =>
    (⟨500, errBody "AWS client not initialized. Please check environment variables."⟩, [])
  | some cfg =>
    if !(strTruthy body.fileName) then
      (⟨400, errBody "Missing required field: fileName is required"⟩, [])
    else
      let call := SdkCall.signDownload .aws cfg.bucketName (body.fileName.getD "") 900
      match signResult with
      | .ok url =>
        (⟨200, issuanceBody url (body.fileName.getD "") 900
          "Presigned download URL generated successfully"⟩, [call])
      | .error e =>
        (⟨500, errDetailsBody "Failed to generate presigned download URL" e⟩, [call])

/-- POST of src/app/api/aws/aws-delete/route.ts: issue a presigned
DeleteObject URL valid for 300 seconds.  No existence probe is made. -/
def awsDeleteRoute (env : AwsEnv) (body : KeyBody)
    (signResult : Except String String) : Resp × List SdkCall :=
  match validateAwsEnv env with
  | none =>
    (⟨500, errBody "AWS client not initialized. Please check environment variables."⟩, [])
  | some cfg =>
    if !(strTruthy body.fileName) then
      (⟨400, errBody "Missing required field: fileName is required"⟩, [])
    else
      let call := SdkCall.signDelete .aws cfg.bucketName (body.fileName.getD "") 300
      match signResult with
      | .ok url =>
        (⟨200, issuanceBody url (body.fileName.getD "") 300
          "Presigned delete URL generated successfully"⟩, [call])
      | .error e =>
        (⟨500, errDetailsBody "Failed to generate presigned delete URL" e⟩, [call])

/-- An object as returned by the S3 ListObjectsV2 call (the fields the
route copies). -/
structure S3Object where
  key : String
  size : Int
  lastModified : String
deriving DecidableEq, Repr

/-- The per-object projection of src/app/api/aws/aws-list/route.ts. -/
def awsFileJson (o : S3Object) : Js :=
  .obj [("name", .s o.key), ("size", .n o.size), ("lastModified", .s o.lastModified)]

/-- GET of src/app/api/aws/aws-list/route.ts: list bucket objects and map
each to { name, size, lastModified }. -/
def awsListRoute (env : AwsEnv) (listResult : Except String (List S3Object)) :
    Resp × List SdkCall :=
  match validateAwsEnv env with
  | none =>
    (⟨500, errBody "AWS client not initialized. Please check environment variables."⟩, [])
  | some cfg =>
    let call := SdkCall.listObjects .aws cfg.bucketName
    match listResult with
    | .ok objs => (⟨200, .obj [("files", .arr (objs.map awsFileJson))]⟩, [call])
    | .error e => (⟨500, errDetailsBody "Failed to list files" e⟩, [call])

/-- POST of src/app/api/aws/aws-response/route.ts: record an upload
completion.  The module performs no environment validation and touches no
provider SDK; it only validates fileName and acknowledges. -/
def awsResponseRoute (body : CompletionBody) (nowIso : String) :
    Resp × List SdkCall :=
  if !(strTruthy body.fileName) then
    (⟨400, errBody "Missing required field: fileName is required"⟩, [])
  else
    (⟨200, .obj [("message", .s "Upload completion recorded successfully"),
                 ("fileName", .s (body.fileName.getD "")),
                 ("recordedAt", .s nowIso)]⟩, [])

/-! ## GCP routes (src/app/api/gcp) -/

/-- Environment variables read by the GCP issuance route modules
(gcp-post and the download/delete issuance routes). -/
structure GcpEnv where
  googleCloudProject : Option String
  googleApplicationCredentials : Option String
  gcpStorageBucket : Option String
deriving DecidableEq, Repr

/-- The configuration produced by a successful validateGcpEnv of the
issuance route modules. -/
structure GcpConfig where
  projectId : String
  credentialsPath : String
  bucketName : String
deriving DecidableEq, Repr

/-- validateGcpEnv of the issuance routes: requires GOOGLE_CLOUD_PROJECT,
GOOGLE_APPLICATION_CREDENTIALS and GCP_STORAGE_BUCKET. -/
def validateGcpEnv (e : GcpEnv) : Option GcpConfig :=
  if strTruthy e.googleCloudProject && strTruthy e.googleApplicationCredentials &&
      strTruthy e.gcpStorageBucket then
    some { projectId := e.googleCloudProject.getD "",
           credentialsPath := e.googleApplicationCredentials.getD "",
           bucketName := e.gcpStorageBucket.getD "" }
  else none

/-- POST of src/app/api/gcp/gcp-post/route.ts: issue a signed upload URL
valid for one hour.  Unlike the AWS upload route, it performs no
content-type allow-list check and no size-ceiling check. -/
def gcpPostRoute (env : GcpEnv) (body : UploadBody) (now : Nat)
    (signResult : Except String String) : Resp × List SdkCall :=
  match validateGcpEnv env with
  | none =>
    (⟨500, errBody "GCP Storage client not initialized. Please check environment variables."⟩, [])
  | some cfg =>
    if !(strTruthy body.fileName && strTruthy body.fileType) then
      (⟨400, errBody "Missing required fields: fileName and fileType are required"⟩, [])
    else
      let uniqueFileName := uniqueObjectKey now (body.fileName.getD "")
      let call := SdkCall.signUpload .gcp cfg.bucketName uniqueFileName
        (body.fileType.getD "") 3600
      match signResult with
      | .ok url =>
        (⟨200, issuanceBody url uniqueFileName 3600
          "Presigned upload URL generated successfully"⟩, [call])
      | .error e =>
        (⟨500, errDetailsBody "Failed to generate presigned upload URL" e⟩, [call])

/-- POST of the GCP download-issuance route: signed read URL valid for
15 minutes. -/
def gcpDownloadRoute (env : GcpEnv) (body : KeyBody)
    (signResult : Except String String) : Resp × List SdkCall :=
  match validateGcpEnv env with
  | none =>
    (⟨500, errBody "GCP Storage client not initialized. Please check environment variables."⟩, [])
  | some cfg =>
    if !(strTruthy body.fileName) then
      (⟨400, errBody "Missing required field: fileName is required"⟩, [])
    else
      let call := SdkCall.signDownload .gcp cfg.bucketName (body.fileName.getD "") 900
      match signResult with
      | .ok url =>
        (⟨200, issuanceBody url (body.fileName.getD "") 900
          "Presigned download URL generated successfully"⟩, [call])
      | .error e =>
        (⟨500, errDetailsBody "Failed to generate presigned download URL" e⟩, [call])

/-- POST of the GCP delete-issuance route: signed delete URL valid for
5 minutes.  No existence probe is made. -/
def gcpDeleteIssuanceRoute (env : GcpEnv) (body : KeyBody)
    (signResult : Except String String) : Resp × List SdkCall :=
  match validateGcpEnv env with
  | none =>
    (⟨500, errBody "GCP Storage client not initialized. Please check environment variables."⟩, [])
  | some cfg =>
    if !(strTruthy body.fileName) then
      (⟨400, errBody "Missing required field: fileName is required"⟩, [])
    else
      let call := SdkCall.signDelete .gcp cfg.bucketName (body.fileName.getD "") 300
      match signResult with
      | .ok url =>
        (⟨200, issuanceBody url (body.fileName.getD "") 300
          "Presigned delete URL generated successfully"⟩, [call])
      | .error e =>
        (⟨500, errDetailsBody "Failed to generate presigned delete URL" e⟩, [call])

/-- Environment variables read by the direct (non-presigned) GCP route
module src/app/api/gcp/route.ts: GCP_BUCKET_NAME and
GOOGLE_APPLICATION_CREDENTIALS. -/
structure GcpMainEnv where
  gcpBucketName : Option String
  googleApplicationCredentials : Option String
deriving DecidableEq, Repr

/-- The configuration produced by validateGcpEnv of src/app/api/gcp/route.ts. -/
structure GcpMainConfig where
  bucketName : String
  credentialsPath : String
deriving DecidableEq, Repr

/-- validateGcpEnv of src/app/api/gcp/route.ts. -/
def validateGcpMainEnv (e : GcpMainEnv) : Option GcpMainConfig :=
  if strTruthy e.gcpBucketName && strTruthy e.googleApplicationCredentials then
    some { bucketName := e.gcpBucketName.getD "",
           credentialsPath := e.googleApplicationCredentials.getD "" }
  else none

/-- An object as returned by the GCP getFiles call.  The route reads
file.name and the metadata fields size, updated and contentType; the
model covers listings whose objects carry full metadata (JSON
serialization of absent metadata fields is not exercised by the claims). -/
structure GcpObject where
  name : String
  size : Int
  updated : String
  contentType : String
deriving DecidableEq, Repr

/-- The per-object projection of the list branch of GET in
src/app/api/gcp/route.ts: it copies name, size, lastModified and also a
fourth field, contentType. -/
def gcpMainFileJson (o : GcpObject) : Js :=
  .obj [("name", .s o.name), ("size", .n o.size),
        ("lastModified", .s o.updated), ("contentType", .s o.contentType)]

/-- The list branch of GET in src/app/api/gcp/route.ts (no key query
parameter): list bucket objects and map each one. -/
def gcpMainListRoute (env : GcpMainEnv)
    (listResult : Except String (List GcpObject)) : Resp × List SdkCall :=
  match validateGcpMainEnv env with
  | none =>
    (⟨500, errBody "GCP client not initialized. Please check environment variables."⟩, [])
  | some cfg =>
    let call := SdkCall.listObjects .gcp cfg.bucketName
    match listResult with
    | .ok objs => (⟨200, .obj [("files", .arr (objs.map gcpMainFileJson))]⟩, [call])
    | .error e => (⟨500, errDetailsBody "ListFiles failed" e⟩, [call])

/-- DELETE of src/app/api/gcp/route.ts: direct deletion by the key query
parameter.  It probes existence first and returns a 404 not-found error
for a missing object, deleting only when the probe reports existence. -/
def gcpMainDeleteRoute (env : GcpMainEnv) (key : Option String)
    (existsResult : Except String Bool) (deleteResult : Except String Unit) :
    Resp × List SdkCall :=
  match validateGcpMainEnv env with
  | none =>
    (⟨500, errBody "GCP client not initialized. Please check environment variables."⟩, [])
  | some cfg =>
    if !(strTruthy key) then
      (⟨400, errBody "No key provided"⟩, [])
    else
      let probe := SdkCall.existsObject .gcp cfg.bucketName (key.getD "")
      match existsResult with
      | .error e => (⟨500, errDetailsBody "DeleteFile failed" e⟩, [probe])
      | .ok false => (⟨404, errBody "File not found"⟩, [probe])
      | .ok true =>
        let del := SdkCall.deleteObject .gcp cfg.bucketName (key.getD "")
        match deleteResult with
        | .error e => (⟨500, errDetailsBody "DeleteFile failed" e⟩, [probe, del])
        | .ok _ => (⟨200, .obj [("message", .s "Delete successful")]⟩, [probe, del])

/-- POST of the GCP upload-completion route: like the AWS one, it
performs no environment validation and touches no provider SDK. -/
def gcpResponseRoute (body : CompletionBody) (nowIso : String) :
    Resp × List SdkCall :=
  if !(strTruthy body.fileName) then
    (⟨400, errBody "Missing required field: fileName is required"⟩, [])
  else
    (⟨200, .obj [("message", .s "GCP upload completion recorded successfully"),
                 ("fileName", .s (body.fileName.getD "")),
                 ("recordedAt", .s nowIso)]⟩, [])

/-! ## Azure routes (src/app/api/azure) -/

/-- Environment variables read by the Azure issuance and list route
modules. -/
structure AzureEnv where
  accountName : Option String
  accountKey : Option String
  containerName : Option String
deriving DecidableEq, Repr

/-- The configuration produced by a successful validateAzureEnv. -/
structure AzureConfig where
  accountName : String
  accountKey : String
  containerName : String
deriving DecidableEq, Repr

/-- validateAzureEnv: requires AZURE_STORAGE_ACCOUNT_NAME,
AZURE_STORAGE_ACCOUNT_KEY and AZURE_STORAGE_CONTAINER_NAME. -/
def validateAzureEnv (e : AzureEnv) : Option AzureConfig :=
  if strTruthy e.accountName && strTruthy e.accountKey &&
      strTruthy e.containerName then
    some { accountName := e.accountName.getD "",
           accountKey := e.accountKey.getD "",
           containerName := e.containerName.getD "" }
  else none

/-- The URL of a blob client for the given account, container and blob. -/
def azureBlobUrl (accountName containerName blobName : String) : String :=
  "https://" ++ accountName ++ ".blob.core.windows.net/" ++
    containerName ++ "/" ++ blobName

/-- POST of src/app/api/azure/azure-post/route.ts: issue a write SAS URL
valid for one hour.  Like GCP, it performs no content-type or size
checks.  The sign outcome is the SAS token; the returned URL is the blob
URL with the token appended. -/
def azurePostRoute (env : AzureEnv) (body : UploadBody) (now : Nat)
    (signResult : Except String String) : Resp × List SdkCall :=
  match validateAzureEnv env with
  | none =>
    (⟨500, errBody "Azure Blob Service client not initialized. Please check environment variables."⟩, [])
  | some cfg =>
    if !(strTruthy body.fileName && strTruthy body.fileType) then
      (⟨400, errBody "Missing required fields: fileName and fileType are required"⟩, [])
    else
      let uniqueFileName := uniqueObjectKey now (body.fileName.getD "")
      let call := SdkCall.signUpload .azure cfg.containerName uniqueFileName
        (body.fileType.getD "") 3600
      match signResult with
      | .ok sas =>
        (⟨200, issuanceBody
          (azureBlobUrl cfg.accountName cfg.containerName uniqueFileName ++ "?" ++ sas)
          uniqueFileName 3600
          "Presigned upload URL generated successfully"⟩, [call])
      | .error e =>
        (⟨500, errDetailsBody "Failed to generate presigned upload URL" e⟩, [call])

/-- POST of the Azure download-issuance route: read SAS URL valid for
15 minutes. -/
def azureDownloadRoute (env : AzureEnv) (body : KeyBody)
    (signResult : Except String String) : Resp × List SdkCall :=
  match validateAzureEnv env with
  | none =>
    (⟨500, errBody "Azure Blob Service client not initialized. Please check environment variables."⟩, [])
  | some cfg =>
    if !(strTruthy body.fileName) then
      (⟨400, errBody "Missing required field: fileName is required"⟩, [])
    else
      let call := SdkCall.signDownload .azure cfg.containerName (body.fileName.getD "") 900
      match signResult with
      | .ok sas =>
        (⟨200, issuanceBody
          (azureBlobUrl cfg.accountName cfg.containerName (body.fileName.getD "") ++ "?" ++ sas)
          (body.fileName.getD "") 900
          "Presigned download URL generated successfully"⟩, [call])
      | .error e =>
        (⟨500, errDetailsBody "Failed to generate presigned download URL" e⟩, [call])

/-- POST of the Azure delete-issuance route: delete SAS URL valid for
5 minutes.  No existence probe is made. -/
def azureDeleteRoute (env : AzureEnv) (body : KeyBody)
    (signResult : Except String String) : Resp × List SdkCall :=
  match validateAzureEnv env with
  | none =>
    (⟨500, errBody "Azure Blob Service client not initialized. Please check environment variables."⟩, [])
  | some cfg =>
    if !(strTruthy body.fileName) then
      (⟨400, errBody "Missing required field: fileName is required"⟩, [])
    else
      let call := SdkCall.signDelete .azure cfg.containerName (body.fileName.getD "") 300
      match signResult with
      | .ok sas =>
        (⟨200, issuanceBody
          (azureBlobUrl cfg.accountName cfg.containerName (body.fileName.getD "") ++ "?" ++ sas)
          (body.fileName.getD "") 300
          "Presigned delete URL generated successfully"⟩, [call])
      | .error e =>
        (⟨500, errDetailsBody "Failed to generate presigned delete URL" e⟩, [call])

/-- A blob as enumerated by the Azure listBlobsFlat call.  The
contentLength and lastModified properties may be absent; the route
defaults them to 0 and to the current ISO time. -/
structure AzureBlob where
  name : String
  contentLength : Option Int
  lastModified : Option String
deriving DecidableEq, Repr

/-- The per-blob projection of the Azure list route, with its defaults
(blob.properties.contentLength or 0, lastModified or the current time). -/
def azureFileJson (nowIso : String) (o : AzureBlob) : Js :=
  .obj [("name", .s o.name), ("size", .n (o.contentLength.getD 0)),
        ("lastModified", .s (o.lastModified.getD nowIso))]

/-- GET of the Azure list route: enumerate blobs and map each to
{ name, size, lastModified }. -/
def azureListRoute (env : AzureEnv) (nowIso : String)
    (listResult : Except String (List AzureBlob)) : Resp × List SdkCall :=
  match validateAzureEnv env with
  | none =>
    (⟨500, errBody "Azure Blob Service client not initialized. Please check environment variables."⟩, [])
  | some cfg =>
    let call := SdkCall.listObjects .azure cfg.containerName
    match listResult with
    | .ok blobs => (⟨200, .obj [("files", .arr (blobs.map (azureFileJson nowIso)))]⟩, [call])
    | .error e => (⟨500, errDetailsBody "Failed to list files" e⟩, [call])

/-! ## Sample concrete inputs used by witnesses and counterexamples -/

/-- A fully populated AWS environment. -/
def sampleAwsEnv : AwsEnv :=
  ⟨some "us-east-1", some "AKIA123", some "secret123", some "images-bucket"⟩

/-- The configuration sampleAwsEnv validates to. -/
def sampleAwsConfig : AwsConfig :=
  ⟨"us-east-1", "AKIA123", "secret123", "images-bucket"⟩

/-- A fully populated GCP issuance environment. -/
def sampleGcpEnv : GcpEnv :=
  ⟨some "my-project", some "/creds.json", some "images-bucket-gcp"⟩

/-- The configuration sampleGcpEnv validates to. -/
def sampleGcpConfig : GcpConfig :=
  ⟨"my-project", "/creds.json", "images-bucket-gcp"⟩

/-- A fully populated environment for the direct GCP route module. -/
def sampleGcpMainEnv : GcpMainEnv := ⟨some "images-bucket-gcp", some "/creds.json"⟩

/-- The configuration sampleGcpMainEnv validates to. -/
def sampleGcpMainConfig : GcpMainConfig := ⟨"images-bucket-gcp", "/creds.json"⟩

/-- A fully populated Azure environment. -/
def sampleAzureEnv : AzureEnv := ⟨some "myaccount", some "base64key", some "images"⟩

/-- The configuration sampleAzureEnv validates to. -/
def sampleAzureConfig : AzureConfig := ⟨"myaccount", "base64key", "images"⟩

/-- A valid upload-issuance body. -/
def sampleUpload : UploadBody := ⟨some "cat.jpg", some "image/jpeg", some 1048576⟩

/-- A valid download- or delete-issuance body. -/
def sampleKey : KeyBody := ⟨some "cat.jpg"⟩

/-- An AWS environment with AWS_REGION missing. -/
def brokenAwsEnv : AwsEnv := ⟨none, some "AKIA123", some "secret123", some "images-bucket"⟩

/-- A GCP issuance environment with the bucket variable set but empty. -/
def brokenGcpEnv : GcpEnv := ⟨some "my-project", some "/creds.json", some ""⟩

/-- A direct-route GCP environment with the credentials variable missing. -/
def brokenGcpMainEnv : GcpMainEnv := ⟨some "images-bucket-gcp", none⟩

/-- An Azure environment with the account key missing. -/
def brokenAzureEnv : AzureEnv := ⟨some "myaccount", none, some "images"⟩

/-- An upload body declaring a non-image content type and a 20 MiB size. -/
def pdfUpload : UploadBody := ⟨some "doc.pdf", some "application/pdf", some 20971520⟩

/-- An upload body declaring an allowed image type but a 20 MiB size. -/
def oversizeUpload : UploadBody := ⟨some "big.png", some "image/png", some 20971520⟩

/-- A sample object as returned by the GCP getFiles call. -/
def sampleGcpObject : GcpObject := ⟨"a.png", 123, "2024-01-01T00:00:00Z", "image/png"⟩

/-! ## Decimal representation of timestamps

The upload object key is the template literal `${timestamp}-${fileName}`;
its Lean embedding renders the timestamp with toString, that is Nat.repr.
The following development proves that decimal rendering is injective, so
distinct millisecond timestamps give distinct object keys. -/

/-- Numeric value of a decimal digit character. -/
def digitVal (c : Char) : Nat := c.toNat - '0'.toNat

/-- Decode a most-significant-first list of decimal digit characters. -/
def decodeDecimal (l : List Char) : Nat :=
  l.foldl (fun a c => 10 * a + digitVal c) 0

lemma digitVal_digitChar {m : Nat} (h : m < 10) :
    digitVal (Nat.digitChar m) = m := by
  interval_cases m <;> rfl

lemma toDigitsCore_append (b : Nat) :
    ∀ (f n : Nat) (ds : List Char),
      Nat.toDigitsCore b f n ds = Nat.toDigitsCore b f n [] ++ ds := by
  intro f
  induction f with
  | zero => intro n ds; simp [Nat.toDigitsCore]
  | succ f ih =>
    intro n ds
    simp only [Nat.toDigitsCore]
    by_cases h : n / b = 0
    · simp [h]
    · simp only [h, if_false]
      rw [ih (n / b) (Nat.digitChar (n % b) :: ds),
        ih (n / b) [Nat.digitChar (n % b)], List.append_assoc]
      rfl

lemma decodeDecimal_toDigitsCore :
    ∀ (f n : Nat), n < 10 ^ f →
      decodeDecimal (Nat.toDigitsCore 10 f n []) = n := by
  intro f
  induction f with
  | zero =>
    intro n hn
    interval_cases n
    rfl
  | succ f ih =>
    intro n hn
    simp only [Nat.toDigitsCore]
    by_cases h : n / 10 = 0
    · have hn10 : n < 10 := by omega
      simp only [h, if_true]
      simp [decodeDecimal, Nat.mod_eq_of_lt hn10, digitVal_digitChar hn10]
    · have hdiv : n / 10 < 10 ^ f := by
        rw [Nat.div_lt_iff_lt_mul (by norm_num : 0 < 10)]
        calc n < 10 ^ (f + 1) := hn
          _ = 10 ^ f * 10 := by ring
      simp only [h, if_false]
      rw [toDigitsCore_append]
      unfold decodeDecimal
      rw [List.foldl_append]
      have hrec := ih (n / 10) hdiv
      unfold decodeDecimal at hrec
      rw [hrec]
      simp [digitVal_digitChar (Nat.mod_lt n (by norm_num))]
      omega

lemma toDigits_ten_injective {a b : Nat}
    (h : Nat.toDigits 10 a = Nat.toDigits 10 b) : a = b := by
  have ha : a < 10 ^ (a + 1) :=
    Nat.lt_trans (Nat.lt_pow_self (by norm_num) a)
      (Nat.pow_lt_pow_succ (by norm_num))
  have hb : b < 10 ^ (b + 1) :=
    Nat.lt_trans (Nat.lt_pow_self (by norm_num) b)
      (Nat.pow_lt_pow_succ (by norm_num))
  calc a = decodeDecimal (Nat.toDigitsCore 10 (a + 1) a []) :=
        (decodeDecimal_toDigitsCore (a + 1) a ha).symm
    _ = decodeDecimal (Nat.toDigitsCore 10 (b + 1) b []) := by
        rw [show Nat.toDigitsCore 10 (a + 1) a [] = Nat.toDigits 10 a from rfl, h]; rfl
    _ = b := decodeDecimal_toDigitsCore (b + 1) b hb

lemma nat_repr_injective {a b : Nat} (h : Nat.repr a = Nat.repr b) : a = b := by
  apply toDigits_ten_injective
  have := congrArg String.data h
  simpa [Nat.repr, List.asString] using this

/-- Distinct timestamps yield distinct upload object keys, for any fixed
client-supplied file name. -/
lemma uniqueObjectKey_inj_timestamp {t1 t2 : Nat} {name : String}
    (h : uniqueObjectKey t1 name = uniqueObjectKey t2 name) : t1 = t2 := by
  apply nat_repr_injective
  apply String.ext
  have hd := congrArg String.data h
  simp only [uniqueObjectKey, String.data_append] at hd
  have : (toString t1).data = (toString t2).data := by
    rw [List.append_assoc, List.append_assoc] at hd
    exact List.append_cancel_right hd
  exact this

/-! ## Route characterization lemmas

One lemma per reachable branch of each handler, reused by the claim
theorems below. -/

lemma awsPost_unconfigured {env : AwsEnv} (h : validateAwsEnv env = none)
    (body : UploadBody) (now : Nat) (r : Except String String) :
    awsPostRoute env body now r =
      (⟨500, errBody "AWS client not initialized. Please check environment variables."⟩, []) := by
  simp [awsPostRoute, h]

lemma awsPost_noFileName {env : AwsEnv} {cfg : AwsConfig} {body : UploadBody}
    (h : validateAwsEnv env = some cfg) (hfn : strTruthy body.fileName = false)
    (now : Nat) (r : Except String String) :
    awsPostRoute env body now r =
      (⟨400, errBody "Missing required fields: fileName and fileType are required"⟩, []) := by
  simp [awsPostRoute, h, hfn]

lemma awsPost_badType {env : AwsEnv} {cfg : AwsConfig} {body : UploadBody}
    (h : validateAwsEnv env = some cfg) (hfn : strTruthy body.fileName = true)
    (hft : strTruthy body.fileType = true)
    (hty : allowedTypes.contains (body.fileType.getD "") = false)
    (now : Nat) (r : Except String String) :
    awsPostRoute env body now r =
      (⟨400, errBody "Invalid file type. Only image files are allowed."⟩, []) := by
  have hty2 : body.fileType.getD "" ∉ allowedTypes := by simpa using hty
  simp [awsPostRoute, h, hfn, hft, hty2]

lemma awsPost_oversize {env : AwsEnv} {cfg : AwsConfig} {body : UploadBody}
    (h : validateAwsEnv env = some cfg) (hfn : strTruthy body.fileName = true)
    (hft : strTruthy body.fileType = true)
    (hty : allowedTypes.contains (body.fileType.getD "") = true)
    (hsz : (numTruthy body.fileSize && body.fileSize.getD 0 > maxSize) = true)
    (now : Nat) (r : Except String String) :
    awsPostRoute env body now r =
      (⟨400, errBody "File size too large. Maximum size is 10MB."⟩, []) := by
  have hty2 : body.fileType.getD "" ∈ allowedTypes := by simpa using hty
  have hsz2 : numTruthy body.fileSize = true ∧ maxSize < body.fileSize.getD 0 := by
    simpa using hsz
  simp [awsPostRoute, h, hfn, hft, hty2, hsz2.1, hsz2.2]

lemma awsPost_success {env : AwsEnv} {cfg : AwsConfig} {body : UploadBody}
    (h : validateAwsEnv env = some cfg) (hfn : strTruthy body.fileName = true)
    (hft : strTruthy body.fileType = true)
    (hty : allowedTypes.contains (body.fileType.getD "") = true)
    (hsz : (numTruthy body.fileSize && body.fileSize.getD 0 > maxSize) = false)
    (now : Nat) (url : String) :
    awsPostRoute env body now (.ok url) =
      (⟨200, issuanceBody url (uniqueObjectKey now (body.fileName.getD "")) 3600
          "Presigned upload URL generated successfully"⟩,
        [SdkCall.signUpload .aws cfg.bucketName
          (uniqueObjectKey now (body.fileName.getD "")) (body.fileType.getD "") 3600]) := by
  have hty2 : body.fileType.getD "" ∈ allowedTypes := by simpa using hty
  have hsz2 : ¬(numTruthy body.fileSize = true ∧ maxSize < body.fileSize.getD 0) := by
    simpa using hsz
  simp [awsPostRoute, h, hfn, hft, hty2, hsz2]

lemma awsPost_signError {env : AwsEnv} {cfg : AwsConfig} {body : UploadBody}
    (h : validateAwsEnv env = some cfg) (hfn : strTruthy body.fileName = true)
    (hft : strTruthy body.fileType = true)
    (hty : allowedTypes.contains (body.fileType.getD "") = true)
    (hsz : (numTruthy body.fileSize && body.fileSize.getD 0 > maxSize) = false)
    (now : Nat) (e : String) :
    awsPostRoute env body now (.error e) =
      (⟨500, errDetailsBody "Failed to generate presigned upload URL" e⟩,
        [SdkCall.signUpload .aws cfg.bucketName
          (uniqueObjectKey now (body.fileName.getD "")) (body.fileType.getD "") 3600]) := by
  have hty2 : body.fileType.getD "" ∈ allowedTypes := by simpa using hty
  have hsz2 : ¬(numTruthy body.fileSize = true ∧ maxSize < body.fileSize.getD 0) := by
    simpa using hsz
  simp [awsPostRoute, h, hfn, hft, hty2, hsz2]

lemma awsDownload_unconfigured {env : AwsEnv} (h : validateAwsEnv env = none)
    (body : KeyBody) (r : Except String String) :
    awsDownloadRoute env body r =
      (⟨500, errBody "AWS client not initialized. Please check environment variables."⟩, []) := by
  simp [awsDownloadRoute, h]

lemma awsDownload_noFileName {env : AwsEnv} {cfg : AwsConfig} {body : KeyBody}
    (h : validateAwsEnv env = some cfg) (hfn : strTruthy body.fileName = false)
    (r : Except String String) :
    awsDownloadRoute env body r =
      (⟨400, errBody "Missing required field: fileName is required"⟩, []) := by
  simp [awsDownloadRoute, h, hfn]

lemma awsDownload_success {env : AwsEnv} {cfg : AwsConfig} {body : KeyBody}
    (h : validateAwsEnv env = some cfg) (hfn : strTruthy body.fileName = true)
    (url : String) :
    awsDownloadRoute env body (.ok url) =
      (⟨200, issuanceBody url (body.fileName.getD "") 900
          "Presigned download URL generated successfully"⟩,
        [SdkCall.signDownload .aws cfg.bucketName (body.fileName.getD "") 900]) := by
  simp [awsDownloadRoute, h, hfn]

lemma awsDownload_signError {env : AwsEnv} {cfg : AwsConfig} {body : KeyBody}
    (h : validateAwsEnv env = some cfg) (hfn : strTruthy body.fileName = true)
    (e : String) :
    awsDownloadRoute env body (.error e) =
      (⟨500, errDetailsBody "Failed to generate presigned download URL" e⟩,
        [SdkCall.signDownload .aws cfg.bucketName (body.fileName.getD "") 900]) := by
  simp [awsDownloadRoute, h, hfn]

lemma awsDelete_unconfigured {env : AwsEnv} (h : validateAwsEnv env = none)
    (body : KeyBody) (r : Except String String) :
    awsDeleteRoute env body r =
      (⟨500, errBody "AWS client not initialized. Please check environment variables."⟩, []) := by
  simp [awsDeleteRoute, h]

lemma awsDelete_noFileName {env : AwsEnv} {cfg : AwsConfig} {body : KeyBody}
    (h : validateAwsEnv env = some cfg) (hfn : strTruthy body.fileName = false)
    (r : Except String String) :
    awsDeleteRoute env body r =
      (⟨400, errBody "Missing required field: fileName is required"⟩, []) := by
  simp [awsDeleteRoute, h, hfn]

lemma awsDelete_success {env : AwsEnv} {cfg : AwsConfig} {body : KeyBody}
    (h : validateAwsEnv env = some cfg) (hfn : strTruthy body.fileName = true)
    (url : String) :
    awsDeleteRoute env body (.ok url) =
      (⟨200, issuanceBody url (body.fileName.getD "") 300
          "Presigned delete URL generated successfully"⟩,
        [SdkCall.signDelete .aws cfg.bucketName (body.fileName.getD "") 300]) := by
  simp [awsDeleteRoute, h, hfn]

lemma awsDelete_signError {env : AwsEnv} {cfg : AwsConfig} {body : KeyBody}
    (h : validateAwsEnv env = some cfg) (hfn : strTruthy body.fileName = true)
    (e : String) :
    awsDeleteRoute env body (.error e) =
      (⟨500, errDetailsBody "Failed to generate presigned delete URL" e⟩,
        [SdkCall.signDelete .aws cfg.bucketName (body.fileName.getD "") 300]) := by
  simp [awsDeleteRoute, h, hfn]

lemma awsList_unconfigured {env : AwsEnv} (h : validateAwsEnv env = none)
    (r : Except String (List S3Object)) :
    awsListRoute env r =
      (⟨500, errBody "AWS client not initialized. Please check environment variables."⟩, []) := by
  simp [awsListRoute, h]

lemma awsList_ok {env : AwsEnv} {cfg : AwsConfig}
    (h : validateAwsEnv env = some cfg) (objs : List S3Object) :
    awsListRoute env (.ok objs) =
      (⟨200, .obj [("files", .arr (objs.map awsFileJson))]⟩,
        [SdkCall.listObjects .aws cfg.bucketName]) := by
  simp [awsListRoute, h]

lemma gcpPost_unconfigured {env : GcpEnv} (h : validateGcpEnv env = none)
    (body : UploadBody) (now : Nat) (r : Except String String) :
    gcpPostRoute env body now r =
      (⟨500, errBody "GCP Storage client not initialized. Please check environment variables."⟩, []) := by
  simp [gcpPostRoute, h]

lemma gcpPost_noFileName {env : GcpEnv} {cfg : GcpConfig} {body : UploadBody}
    (h : validateGcpEnv env = some cfg) (hfn : strTruthy body.fileName = false)
    (now : Nat) (r : Except String String) :
    gcpPostRoute env body now r =
      (⟨400, errBody "Missing required fields: fileName and fileType are required"⟩, []) := by
  simp [gcpPostRoute, h, hfn]

lemma gcpPost_success {env : GcpEnv} {cfg : GcpConfig} {body : UploadBody}
    (h : validateGcpEnv env = some cfg) (hfn : strTruthy body.fileName = true)
    (hft : strTruthy body.fileType = true) (now : Nat) (url : String) :
    gcpPostRoute env body now (.ok url) =
      (⟨200, issuanceBody url (uniqueObjectKey now (body.fileName.getD "")) 3600
          "Presigned upload URL generated successfully"⟩,
        [SdkCall.signUpload .gcp cfg.bucketName
          (uniqueObjectKey now (body.fileName.getD "")) (body.fileType.getD "") 3600]) := by
  simp [gcpPostRoute, h, hfn, hft]

lemma gcpPost_signError {env : GcpEnv} {cfg : GcpConfig} {body : UploadBody}
    (h : validateGcpEnv env = some cfg) (hfn : strTruthy body.fileName = true)
    (hft : strTruthy body.fileType = true) (now : Nat) (e : String) :
    gcpPostRoute env body now (.error e) =
      (⟨500, errDetailsBody "Failed to generate presigned upload URL" e⟩,
        [SdkCall.signUpload .gcp cfg.bucketName
          (uniqueObjectKey now (body.fileName.getD "")) (body.fileType.getD "") 3600]) := by
  simp [gcpPostRoute, h, hfn, hft]

lemma gcpDownload_unconfigured {env : GcpEnv} (h : validateGcpEnv env = none)
    (body : KeyBody) (r : Except String String) :
    gcpDownloadRoute env body r =
      (⟨500, errBody "GCP Storage client not initialized. Please check environment variables."⟩, []) := by
  simp [gcpDownloadRoute, h]

lemma gcpDownload_noFileName {env : GcpEnv} {cfg : GcpConfig} {body : KeyBody}
    (h : validateGcpEnv env = some cfg) (hfn : strTruthy body.fileName = false)
    (r : Except String String) :
    gcpDownloadRoute env body r =
      (⟨400, errBody "Missing required field: fileName is required"⟩, []) := by
  simp [gcpDownloadRoute, h, hfn]

lemma gcpDownload_success {env : GcpEnv} {cfg : GcpConfig} {body : KeyBody}
    (h : validateGcpEnv env = some cfg) (hfn : strTruthy body.fileName = true)
    (url : String) :
    gcpDownloadRoute env body (.ok url) =
      (⟨200, issuanceBody url (body.fileName.getD "") 900
          "Presigned download URL generated successfully"⟩,
        [SdkCall.signDownload .gcp cfg.bucketName (body.fileName.getD "") 900]) := by
  simp [gcpDownloadRoute, h, hfn]

lemma gcpDownload_signError {env : GcpEnv} {cfg : GcpConfig} {body : KeyBody}
    (h : validateGcpEnv env = some cfg) (hfn : strTruthy body.fileName = true)
    (e : String) :
    gcpDownloadRoute env body (.error e) =
      (⟨500, errDetailsBody "Failed to generate presigned download URL" e⟩,
        [SdkCall.signDownload .gcp cfg.bucketName (body.fileName.getD "") 900]) := by
  simp [gcpDownloadRoute, h, hfn]

lemma gcpDeleteIssuance_unconfigured {env : GcpEnv} (h : validateGcpEnv env = none)
    (body : KeyBody) (r : Except String String) :
    gcpDeleteIssuanceRoute env body r =
      (⟨500, errBody "GCP Storage client not initialized. Please check environment variables."⟩, []) := by
  simp [gcpDeleteIssuanceRoute, h]

lemma gcpDeleteIssuance_noFileName {env : GcpEnv} {cfg : GcpConfig} {body : KeyBody}
    (h : validateGcpEnv env = some cfg) (hfn : strTruthy body.fileName = false)
    (r : Except String String) :
    gcpDeleteIssuanceRoute env body r =
      (⟨400, errBody "Missing required field: fileName is required"⟩, []) := by
  simp [gcpDeleteIssuanceRoute, h, hfn]

lemma gcpDeleteIssuance_success {env : GcpEnv} {cfg : GcpConfig} {body : KeyBody}
    (h : validateGcpEnv env = some cfg) (hfn : strTruthy body.fileName = true)
    (url : String) :
    gcpDeleteIssuanceRoute env body (.ok url) =
      (⟨200, issuanceBody url (body.fileName.getD "") 300
          "Presigned delete URL generated successfully"⟩,
        [SdkCall.signDelete .gcp cfg.bucketName (body.fileName.getD "") 300]) := by
  simp [gcpDeleteIssuanceRoute, h, hfn]

lemma gcpDeleteIssuance_signError {env : GcpEnv} {cfg : GcpConfig} {body : KeyBody}
    (h : validateGcpEnv env = some cfg) (hfn : strTruthy body.fileName = true)
    (e : String) :
    gcpDeleteIssuanceRoute env body (.error e) =
      (⟨500, errDetailsBody "Failed to generate presigned delete URL" e⟩,
        [SdkCall.signDelete .gcp cfg.bucketName (body.fileName.getD "") 300]) := by
  simp [gcpDeleteIssuanceRoute, h, hfn]

lemma gcpMainList_unconfigured {env : GcpMainEnv} (h : validateGcpMainEnv env = none)
    (r : Except String (List GcpObject)) :
    gcpMainListRoute env r =
      (⟨500, errBody "GCP client not initialized. Please check environment variables."⟩, []) := by
  simp [gcpMainListRoute, h]

lemma gcpMainList_ok {env : GcpMainEnv} {cfg : GcpMainConfig}
    (h : validateGcpMainEnv env = some cfg) (objs : List GcpObject) :
    gcpMainListRoute env (.ok objs) =
      (⟨200, .obj [("files", .arr (objs.map gcpMainFileJson))]⟩,
        [SdkCall.listObjects .gcp cfg.bucketName]) := by
  simp [gcpMainListRoute, h]

lemma gcpMainDelete_unconfigured {env : GcpMainEnv} (h : validateGcpMainEnv env = none)
    (key : Option String) (er : Except String Bool) (dr : Except String Unit) :
    gcpMainDeleteRoute env key er dr =
      (⟨500, errBody "GCP client not initialized. Please check environment variables."⟩, []) := by
  simp [gcpMainDeleteRoute, h]

lemma gcpMainDelete_noKey {env : GcpMainEnv} {cfg : GcpMainConfig} {key : Option String}
    (h : validateGcpMainEnv env = some cfg) (hk : strTruthy key = false)
    (er : Except String Bool) (dr : Except String Unit) :
    gcpMainDeleteRoute env key er dr =
      (⟨400, errBody "No key provided"⟩, []) := by
  simp [gcpMainDeleteRoute, h, hk]

lemma gcpMainDelete_notFound {env : GcpMainEnv} {cfg : GcpMainConfig} {key : Option String}
    (h : validateGcpMainEnv env = some cfg) (hk : strTruthy key = true)
    (dr : Except String Unit) :
    gcpMainDeleteRoute env key (.ok false) dr =
      (⟨404, errBody "File not found"⟩,
        [SdkCall.existsObject .gcp cfg.bucketName (key.getD "")]) := by
  simp [gcpMainDeleteRoute, h, hk]

lemma gcpMainDelete_found {env : GcpMainEnv} {cfg : GcpMainConfig} {key : Option String}
    (h : validateGcpMainEnv env = some cfg) (hk : strTruthy key = true) :
    gcpMainDeleteRoute env key (.ok true) (.ok ()) =
      (⟨200, .obj [("message", .s "Delete successful")]⟩,
        [SdkCall.existsObject .gcp cfg.bucketName (key.getD ""),
         SdkCall.deleteObject .gcp cfg.bucketName (key.getD "")]) := by
  simp [gcpMainDeleteRoute, h, hk]

lemma azurePost_unconfigured {env : AzureEnv} (h : validateAzureEnv env = none)
    (body : UploadBody) (now : Nat) (r : Except String String) :
    azurePostRoute env body now r =
      (⟨500, errBody "Azure Blob Service client not initialized. Please check environment variables."⟩, []) := by
  simp [azurePostRoute, h]

lemma azurePost_noFileName {env : AzureEnv} {cfg : AzureConfig} {body : UploadBody}
    (h : validateAzureEnv env = some cfg) (hfn : strTruthy body.fileName = false)
    (now : Nat) (r : Except String String) :
    azurePostRoute env body now r =
      (⟨400, errBody "Missing required fields: fileName and fileType are required"⟩, []) := by
  simp [azurePostRoute, h, hfn]

lemma azurePost_success {env : AzureEnv} {cfg : AzureConfig} {body : UploadBody}
    (h : validateAzureEnv env = some cfg) (hfn : strTruthy body.fileName = true)
    (hft : strTruthy body.fileType = true) (now : Nat) (sas : String) :
    azurePostRoute env body now (.ok sas) =
      (⟨200, issuanceBody
          (azureBlobUrl cfg.accountName cfg.containerName
            (uniqueObjectKey now (body.fileName.getD "")) ++ "?" ++ sas)
          (uniqueObjectKey now (body.fileName.getD "")) 3600
          "Presigned upload URL generated successfully"⟩,
        [SdkCall.signUpload .azure cfg.containerName
          (uniqueObjectKey now (body.fileName.getD "")) (body.fileType.getD "") 3600]) := by
  simp [azurePostRoute, h, hfn, hft]

lemma azurePost_signError {env : AzureEnv} {cfg : AzureConfig} {body : UploadBody}
    (h : validateAzureEnv env = some cfg) (hfn : strTruthy body.fileName = true)
    (hft : strTruthy body.fileType = true) (now : Nat) (e : String) :
    azurePostRoute env body now (.error e) =
      (⟨500, errDetailsBody "Failed to generate presigned upload URL" e⟩,
        [SdkCall.signUpload .azure cfg.containerName
          (uniqueObjectKey now (body.fileName.getD "")) (body.fileType.getD "") 3600]) := by
  simp [azurePostRoute, h, hfn, hft]

lemma azureDownload_unconfigured {env : AzureEnv} (h : validateAzureEnv env = none)
    (body : KeyBody) (r : Except String String) :
    azureDownloadRoute env body r =
      (⟨500, errBody "Azure Blob Service client not initialized. Please check environment variables."⟩, []) := by
  simp [azureDownloadRoute, h]

lemma azureDownload_noFileName {env : AzureEnv} {cfg : AzureConfig} {body : KeyBody}
    (h : validateAzureEnv env = some cfg) (hfn : strTruthy body.fileName = false)
    (r : Except String String) :
    azureDownloadRoute env body r =
      (⟨400, errBody "Missing required field: fileName is required"⟩, []) := by
  simp [azureDownloadRoute, h, hfn]

lemma azureDownload_success {env : AzureEnv} {cfg : AzureConfig} {body : KeyBody}
    (h : validateAzureEnv env = some cfg) (hfn : strTruthy body.fileName = true)
    (sas : String) :
    azureDownloadRoute env body (.ok sas) =
      (⟨200, issuanceBody
          (azureBlobUrl cfg.accountName cfg.containerName (body.fileName.getD "") ++ "?" ++ sas)
          (body.fileName.getD "") 900
          "Presigned download URL generated successfully"⟩,
        [SdkCall.signDownload .azure cfg.containerName (body.fileName.getD "") 900]) := by
  simp [azureDownloadRoute, h, hfn]

lemma azureDownload_signError {env : AzureEnv} {cfg : AzureConfig} {body : KeyBody}
    (h : validateAzureEnv env = some cfg) (hfn : strTruthy body.fileName = true)
    (e : String) :
    azureDownloadRoute env body (.error e) =
      (⟨500, errDetailsBody "Failed to generate presigned download URL" e⟩,
        [SdkCall.signDownload .azure cfg.containerName (body.fileName.getD "") 900]) := by
  simp [azureDownloadRoute, h, hfn]

lemma azureDelete_unconfigured {env : AzureEnv} (h : validateAzureEnv env = none)
    (body : KeyBody) (r : Except String String) :
    azureDeleteRoute env body r =
      (⟨500, errBody "Azure Blob Service client not initialized. Please check environment variables."⟩, []) := by
  simp [azureDeleteRoute, h]

lemma azureDelete_noFileName {env : AzureEnv} {cfg : AzureConfig} {body : KeyBody}
    (h : validateAzureEnv env = some cfg) (hfn : strTruthy body.fileName = false)
    (r : Except String String) :
    azureDeleteRoute env body r =
      (⟨400, errBody "Missing required field: fileName is required"⟩, []) := by
  simp [azureDeleteRoute, h, hfn]

lemma azureDelete_success {env : AzureEnv} {cfg : AzureConfig} {body : KeyBody}
    (h : validateAzureEnv env = some cfg) (hfn : strTruthy body.fileName = true)
    (sas : String) :
    azureDeleteRoute env body (.ok sas) =
      (⟨200, issuanceBody
          (azureBlobUrl cfg.accountName cfg.containerName (body.fileName.getD "") ++ "?" ++ sas)
          (body.fileName.getD "") 300
          "Presigned delete URL generated successfully"⟩,
        [SdkCall.signDelete .azure cfg.containerName (body.fileName.getD "") 300]) := by
  simp [azureDeleteRoute, h, hfn]

lemma azureDelete_signError {env : AzureEnv} {cfg : AzureConfig} {body : KeyBody}
    (h : validateAzureEnv env = some cfg) (hfn : strTruthy body.fileName = true)
    (e : String) :
    azureDeleteRoute env body (.error e) =
      (⟨500, errDetailsBody "Failed to generate presigned delete URL" e⟩,
        [SdkCall.signDelete .azure cfg.containerName (body.fileName.getD "") 300]) := by
  simp [azureDeleteRoute, h, hfn]

lemma azureList_unconfigured {env : AzureEnv} (h : validateAzureEnv env = none)
    (nowIso : String) (r : Except String (List AzureBlob)) :
    azureListRoute env nowIso r =
      (⟨500, errBody "Azure Blob Service client not initialized. Please check environment variables."⟩, []) := by
  simp [azureListRoute, h]

lemma azureList_ok {env : AzureEnv} {cfg : AzureConfig}
    (h : validateAzureEnv env = some cfg) (nowIso : String) (blobs : List AzureBlob) :
    azureListRoute env nowIso (.ok blobs) =
      (⟨200, .obj [("files", .arr (blobs.map (azureFileJson nowIso)))]⟩,
        [SdkCall.listObjects .azure cfg.containerName]) := by
  simp [azureListRoute, h]


/-! ## Helper computations on response bodies -/

lemma issuance_getField_expiresIn (url key : String) (e : Int) (m : String) :
    (issuanceBody url key e m).getField "expiresIn" = some (.n e) := rfl

lemma issuance_getField_fileName (url key : String) (e : Int) (m : String) :
    (issuanceBody url key e m).getField "fileName" = some (.s key) := rfl

lemma issuance_fieldNames (url key : String) (e : Int) (m : String) :
    (issuanceBody url key e m).fieldNames =
      ["presignedUrl", "fileName", "expiresIn", "message"] := rfl

lemma errBody_fieldNames (m : String) : (errBody m).fieldNames = ["error"] := rfl

lemma errDetailsBody_fieldNames (m d : String) :
    (errDetailsBody m d).fieldNames = ["error", "details"] := rfl

/-! ## Claims -/

/-- C1: for every provider (AWS, GCP, Azure) and every operation, a
successful issuance response carries the fixed expiry constant for that
operation: upload issuance returns expiresIn = 3600, download issuance
returns expiresIn = 900, and delete issuance returns expiresIn = 300, for
all valid inputs. -/
theorem expiry_policy_by_operation :
    (∀ (env : AwsEnv) (cfg : AwsConfig) (body : UploadBody) (now : Nat) (url : String),
      validateAwsEnv env = some cfg →
      strTruthy body.fileName = true → strTruthy body.fileType = true →
      allowedTypes.contains (body.fileType.getD "") = true →
      (numTruthy body.fileSize && body.fileSize.getD 0 > maxSize) = false →
      (awsPostRoute env body now (.ok url)).1.body.getField "expiresIn" = some (.n 3600)) ∧
    (∀ (env : GcpEnv) (cfg : GcpConfig) (body : UploadBody) (now : Nat) (url : String),
      validateGcpEnv env = some cfg →
      strTruthy body.fileName = true → strTruthy body.fileType = true →
      (gcpPostRoute env body now (.ok url)).1.body.getField "expiresIn" = some (.n 3600)) ∧
    (∀ (env : AzureEnv) (cfg : AzureConfig) (body : UploadBody) (now : Nat) (sas : String),
      validateAzureEnv env = some cfg →
      strTruthy body.fileName = true → strTruthy body.fileType = true →
      (azurePostRoute env body now (.ok sas)).1.body.getField "expiresIn" = some (.n 3600)) ∧
    (∀ (env : AwsEnv) (cfg : AwsConfig) (body : KeyBody) (url : String),
      validateAwsEnv env = some cfg → strTruthy body.fileName = true →
      (awsDownloadRoute env body (.ok url)).1.body.getField "expiresIn" = some (.n 900)) ∧
    (∀ (env : GcpEnv) (cfg : GcpConfig) (body : KeyBody) (url : String),
      validateGcpEnv env = some cfg → strTruthy body.fileName = true →
      (gcpDownloadRoute env body (.ok url)).1.body.getField "expiresIn" = some (.n 900)) ∧
    (∀ (env : AzureEnv) (cfg : AzureConfig) (body : KeyBody) (sas : String),
      validateAzureEnv env = some cfg → strTruthy body.fileName = true →
      (azureDownloadRoute env body (.ok sas)).1.body.getField "expiresIn" = some (.n 900)) ∧
    (∀ (env : AwsEnv) (cfg : AwsConfig) (body : KeyBody) (url : String),
      validateAwsEnv env = some cfg → strTruthy body.fileName = true →
      (awsDeleteRoute env body (.ok url)).1.body.getField "expiresIn" = some (.n 300)) ∧
    (∀ (env : GcpEnv) (cfg : GcpConfig) (body : KeyBody) (url : String),
      validateGcpEnv env = some cfg → strTruthy body.fileName = true →
      (gcpDeleteIssuanceRoute env body (.ok url)).1.body.getField "expiresIn" = some (.n 300)) ∧
    (∀ (env : AzureEnv) (cfg : AzureConfig) (body : KeyBody) (sas : String),
      validateAzureEnv env = some cfg → strTruthy body.fileName = true →
      (azureDeleteRoute env body (.ok sas)).1.body.getField "expiresIn" = some (.n 300)) := by
  refine ⟨?_, ?_, ?_, ?_, ?_, ?_, ?_, ?_, ?_⟩
  · intro env cfg body now url hv hfn hft hty hsz
    rw [awsPost_success hv hfn hft hty hsz]
    exact issuance_getField_expiresIn ..
  · intro env cfg body now url hv hfn hft
    rw [gcpPost_success hv hfn hft]
    exact issuance_getField_expiresIn ..
  · intro env cfg body now sas hv hfn hft
    rw [azurePost_success hv hfn hft]
    exact issuance_getField_expiresIn ..
  · intro env cfg body url hv hfn
    rw [awsDownload_success hv hfn]
    exact issuance_getField_expiresIn ..
  · intro env cfg body url hv hfn
    rw [gcpDownload_success hv hfn]
    exact issuance_getField_expiresIn ..
  · intro env cfg body sas hv hfn
    rw [azureDownload_success hv hfn]
    exact issuance_getField_expiresIn ..
  · intro env cfg body url hv hfn
    rw [awsDelete_success hv hfn]
    exact issuance_getField_expiresIn ..
  · intro env cfg body url hv hfn
    rw [gcpDeleteIssuance_success hv hfn]
    exact issuance_getField_expiresIn ..
  · intro env cfg body sas hv hfn
    rw [azureDelete_success hv hfn]
    exact issuance_getField_expiresIn ..

/-- Witness for C1: all nine branches at concrete inputs. -/
theorem expiry_policy_by_operation_witness :
    (awsPostRoute sampleAwsEnv sampleUpload 42 (.ok "u")).1.body.getField "expiresIn"
        = some (.n 3600) ∧
    (gcpPostRoute sampleGcpEnv sampleUpload 42 (.ok "u")).1.body.getField "expiresIn"
        = some (.n 3600) ∧
    (azurePostRoute sampleAzureEnv sampleUpload 42 (.ok "s")).1.body.getField "expiresIn"
        = some (.n 3600) ∧
    (awsDownloadRoute sampleAwsEnv sampleKey (.ok "u")).1.body.getField "expiresIn"
        = some (.n 900) ∧
    (gcpDownloadRoute sampleGcpEnv sampleKey (.ok "u")).1.body.getField "expiresIn"
        = some (.n 900) ∧
    (azureDownloadRoute sampleAzureEnv sampleKey (.ok "s")).1.body.getField "expiresIn"
        = some (.n 900) ∧
    (awsDeleteRoute sampleAwsEnv sampleKey (.ok "u")).1.body.getField "expiresIn"
        = some (.n 300) ∧
    (gcpDeleteIssuanceRoute sampleGcpEnv sampleKey (.ok "u")).1.body.getField "expiresIn"
        = some (.n 300) ∧
    (azureDeleteRoute sampleAzureEnv sampleKey (.ok "s")).1.body.getField "expiresIn"
        = some (.n 300) := by
  refine ⟨?_, ?_, ?_, ?_, ?_, ?_, ?_, ?_, ?_⟩
  · exact expiry_policy_by_operation.1 sampleAwsEnv sampleAwsConfig sampleUpload 42 "u"
      rfl rfl rfl rfl rfl
  · exact expiry_policy_by_operation.2.1 sampleGcpEnv sampleGcpConfig sampleUpload 42 "u"
      rfl rfl rfl
  · exact expiry_policy_by_operation.2.2.1 sampleAzureEnv sampleAzureConfig sampleUpload 42 "s"
      rfl rfl rfl
  · exact expiry_policy_by_operation.2.2.2.1 sampleAwsEnv sampleAwsConfig sampleKey "u" rfl rfl
  · exact expiry_policy_by_operation.2.2.2.2.1 sampleGcpEnv sampleGcpConfig sampleKey "u" rfl rfl
  · exact expiry_policy_by_operation.2.2.2.2.2.1 sampleAzureEnv sampleAzureConfig sampleKey "s"
      rfl rfl
  · exact expiry_policy_by_operation.2.2.2.2.2.2.1 sampleAwsEnv sampleAwsConfig sampleKey "u"
      rfl rfl
  · exact expiry_policy_by_operation.2.2.2.2.2.2.2.1 sampleGcpEnv sampleGcpConfig sampleKey "u"
      rfl rfl
  · exact expiry_policy_by_operation.2.2.2.2.2.2.2.2 sampleAzureEnv sampleAzureConfig sampleKey "s"
      rfl rfl

/-- A fileName that is absent or the empty string is JS-falsy. -/
lemma strTruthy_false_of_absent_or_empty {o : Option String}
    (h : o = none ∨ o = some "") : strTruthy o = false := by
  rcases h with h | h <;> simp [h, strTruthy]

/-- C2: for every provider and every issuance endpoint (upload, download,
delete), if the request body fileName field is absent or empty, the
endpoint returns a client-input error response (status 400, body carrying
an error string) and no provider SDK call is made. -/
theorem missing_fileName_yields_400_and_no_call :
    (∀ (env : AwsEnv) (cfg : AwsConfig) (body : UploadBody) (now : Nat)
      (r : Except String String),
      validateAwsEnv env = some cfg →
      body.fileName = none ∨ body.fileName = some "" →
      awsPostRoute env body now r =
        (⟨400, errBody "Missing required fields: fileName and fileType are required"⟩, [])) ∧
    (∀ (env : GcpEnv) (cfg : GcpConfig) (body : UploadBody) (now : Nat)
      (r : Except String String),
      validateGcpEnv env = some cfg →
      body.fileName = none ∨ body.fileName = some "" →
      gcpPostRoute env body now r =
        (⟨400, errBody "Missing required fields: fileName and fileType are required"⟩, [])) ∧
    (∀ (env : AzureEnv) (cfg : AzureConfig) (body : UploadBody) (now : Nat)
      (r : Except String String),
      validateAzureEnv env = some cfg →
      body.fileName = none ∨ body.fileName = some "" →
      azurePostRoute env body now r =
        (⟨400, errBody "Missing required fields: fileName and fileType are required"⟩, [])) ∧
    (∀ (env : AwsEnv) (cfg : AwsConfig) (body : KeyBody) (r : Except String String),
      validateAwsEnv env = some cfg →
      body.fileName = none ∨ body.fileName = some "" →
      awsDownloadRoute env body r =
        (⟨400, errBody "Missing required field: fileName is required"⟩, [])) ∧
    (∀ (env : GcpEnv) (cfg : GcpConfig) (body : KeyBody) (r : Except String String),
      validateGcpEnv env = some cfg →
      body.fileName = none ∨ body.fileName = some "" →
      gcpDownloadRoute env body r =
        (⟨400, errBody "Missing required field: fileName is required"⟩, [])) ∧
    (∀ (env : AzureEnv) (cfg : AzureConfig) (body : KeyBody) (r : Except String String),
      validateAzureEnv env = some cfg →
      body.fileName = none ∨ body.fileName = some "" →
      azureDownloadRoute env body r =
        (⟨400, errBody "Missing required field: fileName is required"⟩, [])) ∧
    (∀ (env : AwsEnv) (cfg : AwsConfig) (body : KeyBody) (r : Except String String),
      validateAwsEnv env = some cfg →
      body.fileName = none ∨ body.fileName = some "" →
      awsDeleteRoute env body r =
        (⟨400, errBody "Missing required field: fileName is required"⟩, [])) ∧
    (∀ (env : GcpEnv) (cfg : GcpConfig) (body : KeyBody) (r : Except String String),
      validateGcpEnv env = some cfg →
      body.fileName = none ∨ body.fileName = some "" →
      gcpDeleteIssuanceRoute env body r =
        (⟨400, errBody "Missing required field: fileName is required"⟩, [])) ∧
    (∀ (env : AzureEnv) (cfg : AzureConfig) (body : KeyBody) (r : Except String String),
      validateAzureEnv env = some cfg →
      body.fileName = none ∨ body.fileName = some "" →
      azureDeleteRoute env body r =
        (⟨400, errBody "Missing required field: fileName is required"⟩, [])) := by
  refine ⟨?_, ?_, ?_, ?_, ?_, ?_, ?_, ?_, ?_⟩
  · intro env cfg body now r hv hfn
    exact awsPost_noFileName hv (strTruthy_false_of_absent_or_empty hfn) now r
  · intro env cfg body now r hv hfn
    exact gcpPost_noFileName hv (strTruthy_false_of_absent_or_empty hfn) now r
  · intro env cfg body now r hv hfn
    exact azurePost_noFileName hv (strTruthy_false_of_absent_or_empty hfn) now r
  · intro env cfg body r hv hfn
    exact awsDownload_noFileName hv (strTruthy_false_of_absent_or_empty hfn) r
  · intro env cfg body r hv hfn
    exact gcpDownload_noFileName hv (strTruthy_false_of_absent_or_empty hfn) r
  · intro env cfg body r hv hfn
    exact azureDownload_noFileName hv (strTruthy_false_of_absent_or_empty hfn) r
  · intro env cfg body r hv hfn
    exact awsDelete_noFileName hv (strTruthy_false_of_absent_or_empty hfn) r
  · intro env cfg body r hv hfn
    exact gcpDeleteIssuance_noFileName hv (strTruthy_false_of_absent_or_empty hfn) r
  · intro env cfg body r hv hfn
    exact azureDelete_noFileName hv (strTruthy_false_of_absent_or_empty hfn) r

/-- Witness for C2: concrete absent and empty fileName values on all nine
issuance routes of a configured provider. -/
theorem missing_fileName_yields_400_and_no_call_witness :
    awsPostRoute sampleAwsEnv ⟨none, some "image/png", some 5⟩ 42 (.ok "u") =
      (⟨400, errBody "Missing required fields: fileName and fileType are required"⟩, []) ∧
    gcpPostRoute sampleGcpEnv ⟨some "", some "image/png", some 5⟩ 42 (.ok "u") =
      (⟨400, errBody "Missing required fields: fileName and fileType are required"⟩, []) ∧
    azurePostRoute sampleAzureEnv ⟨none, some "image/png", none⟩ 42 (.ok "s") =
      (⟨400, errBody "Missing required fields: fileName and fileType are required"⟩, []) ∧
    awsDownloadRoute sampleAwsEnv ⟨none⟩ (.ok "u") =
      (⟨400, errBody "Missing required field: fileName is required"⟩, []) ∧
    gcpDownloadRoute sampleGcpEnv ⟨some ""⟩ (.ok "u") =
      (⟨400, errBody "Missing required field: fileName is required"⟩, []) ∧
    azureDownloadRoute sampleAzureEnv ⟨none⟩ (.ok "s") =
      (⟨400, errBody "Missing required field: fileName is required"⟩, []) ∧
    awsDeleteRoute sampleAwsEnv ⟨some ""⟩ (.ok "u") =
      (⟨400, errBody "Missing required field: fileName is required"⟩, []) ∧
    gcpDeleteIssuanceRoute sampleGcpEnv ⟨none⟩ (.ok "u") =
      (⟨400, errBody "Missing required field: fileName is required"⟩, []) ∧
    azureDeleteRoute sampleAzureEnv ⟨some ""⟩ (.ok "s") =
      (⟨400, errBody "Missing required field: fileName is required"⟩, []) := by
  refine ⟨?_, ?_, ?_, ?_, ?_, ?_, ?_, ?_, ?_⟩
  · exact missing_fileName_yields_400_and_no_call.1 sampleAwsEnv sampleAwsConfig
      ⟨none, some "image/png", some 5⟩ 42 (.ok "u") rfl (Or.inl rfl)
  · exact missing_fileName_yields_400_and_no_call.2.1 sampleGcpEnv sampleGcpConfig
      ⟨some "", some "image/png", some 5⟩ 42 (.ok "u") rfl (Or.inr rfl)
  · exact missing_fileName_yields_400_and_no_call.2.2.1 sampleAzureEnv sampleAzureConfig
      ⟨none, some "image/png", none⟩ 42 (.ok "s") rfl (Or.inl rfl)
  · exact missing_fileName_yields_400_and_no_call.2.2.2.1 sampleAwsEnv sampleAwsConfig
      ⟨none⟩ (.ok "u") rfl (Or.inl rfl)
  · exact missing_fileName_yields_400_and_no_call.2.2.2.2.1 sampleGcpEnv sampleGcpConfig
      ⟨some ""⟩ (.ok "u") rfl (Or.inr rfl)
  · exact missing_fileName_yields_400_and_no_call.2.2.2.2.2.1 sampleAzureEnv sampleAzureConfig
      ⟨none⟩ (.ok "s") rfl (Or.inl rfl)
  · exact missing_fileName_yields_400_and_no_call.2.2.2.2.2.2.1 sampleAwsEnv sampleAwsConfig
      ⟨some ""⟩ (.ok "u") rfl (Or.inr rfl)
  · exact missing_fileName_yields_400_and_no_call.2.2.2.2.2.2.2.1 sampleGcpEnv sampleGcpConfig
      ⟨none⟩ (.ok "u") rfl (Or.inl rfl)
  · exact missing_fileName_yields_400_and_no_call.2.2.2.2.2.2.2.2 sampleAzureEnv
      sampleAzureConfig ⟨some ""⟩ (.ok "s") rfl (Or.inr rfl)

/-- C3: for every provider, if one or more required environment variables
were missing at startup (the validated configuration is absent), then
every request to the routes that use that provider returns a 500
server-error response and zero calls reach the provider SDK. -/
theorem unconfigured_provider_yields_500_and_no_call :
    (∀ (env : AwsEnv), validateAwsEnv env = none →
      (∀ (body : UploadBody) (now : Nat) (r : Except String String),
        (awsPostRoute env body now r).1.status = 500 ∧ (awsPostRoute env body now r).2 = []) ∧
      (∀ (body : KeyBody) (r : Except String String),
        (awsDownloadRoute env body r).1.status = 500 ∧ (awsDownloadRoute env body r).2 = []) ∧
      (∀ (body : KeyBody) (r : Except String String),
        (awsDeleteRoute env body r).1.status = 500 ∧ (awsDeleteRoute env body r).2 = []) ∧
      (∀ (r : Except String (List S3Object)),
        (awsListRoute env r).1.status = 500 ∧ (awsListRoute env r).2 = [])) ∧
    (∀ (env : GcpEnv), validateGcpEnv env = none →
      (∀ (body : UploadBody) (now : Nat) (r : Except String String),
        (gcpPostRoute env body now r).1.status = 500 ∧ (gcpPostRoute env body now r).2 = []) ∧
      (∀ (body : KeyBody) (r : Except String String),
        (gcpDownloadRoute env body r).1.status = 500 ∧ (gcpDownloadRoute env body r).2 = []) ∧
      (∀ (body : KeyBody) (r : Except String String),
        (gcpDeleteIssuanceRoute env body r).1.status = 500 ∧
          (gcpDeleteIssuanceRoute env body r).2 = [])) ∧
    (∀ (env : GcpMainEnv), validateGcpMainEnv env = none →
      (∀ (r : Except String (List GcpObject)),
        (gcpMainListRoute env r).1.status = 500 ∧ (gcpMainListRoute env r).2 = []) ∧
      (∀ (key : Option String) (er : Except String Bool) (dr : Except String Unit),
        (gcpMainDeleteRoute env key er dr).1.status = 500 ∧
          (gcpMainDeleteRoute env key er dr).2 = [])) ∧
    (∀ (env : AzureEnv), validateAzureEnv env = none →
      (∀ (body : UploadBody) (now : Nat) (r : Except String String),
        (azurePostRoute env body now r).1.status = 500 ∧
          (azurePostRoute env body now r).2 = []) ∧
      (∀ (body : KeyBody) (r : Except String String),
        (azureDownloadRoute env body r).1.status = 500 ∧
          (azureDownloadRoute env body r).2 = []) ∧
      (∀ (body : KeyBody) (r : Except String String),
        (azureDeleteRoute env body r).1.status = 500 ∧ (azureDeleteRoute env body r).2 = []) ∧
      (∀ (nowIso : String) (r : Except String (List AzureBlob)),
        (azureListRoute env nowIso r).1.status = 500 ∧
          (azureListRoute env nowIso r).2 = [])) := by
  refine ⟨fun env hv => ⟨?_, ?_, ?_, ?_⟩, fun env hv => ⟨?_, ?_, ?_⟩,
    fun env hv => ⟨?_, ?_⟩, fun env hv => ⟨?_, ?_, ?_, ?_⟩⟩
  · intro body now r; rw [awsPost_unconfigured hv]; exact ⟨rfl, rfl⟩
  · intro body r; rw [awsDownload_unconfigured hv]; exact ⟨rfl, rfl⟩
  · intro body r; rw [awsDelete_unconfigured hv]; exact ⟨rfl, rfl⟩
  · intro r; rw [awsList_unconfigured hv]; exact ⟨rfl, rfl⟩
  · intro body now r; rw [gcpPost_unconfigured hv]; exact ⟨rfl, rfl⟩
  · intro body r; rw [gcpDownload_unconfigured hv]; exact ⟨rfl, rfl⟩
  · intro body r; rw [gcpDeleteIssuance_unconfigured hv]; exact ⟨rfl, rfl⟩
  · intro r; rw [gcpMainList_unconfigured hv]; exact ⟨rfl, rfl⟩
  · intro key er dr; rw [gcpMainDelete_unconfigured hv]; exact ⟨rfl, rfl⟩
  · intro body now r; rw [azurePost_unconfigured hv]; exact ⟨rfl, rfl⟩
  · intro body r; rw [azureDownload_unconfigured hv]; exact ⟨rfl, rfl⟩
  · intro body r; rw [azureDelete_unconfigured hv]; exact ⟨rfl, rfl⟩
  · intro nowIso r; rw [azureList_unconfigured hv]; exact ⟨rfl, rfl⟩

/-- Witness for C3: environments each missing one required variable (or
holding an empty one), exercised on a representative request per route
family. -/
theorem unconfigured_provider_yields_500_and_no_call_witness :
    ((awsPostRoute brokenAwsEnv sampleUpload 42 (.ok "u")).1.status = 500 ∧
      (awsPostRoute brokenAwsEnv sampleUpload 42 (.ok "u")).2 = []) ∧
    ((gcpPostRoute brokenGcpEnv sampleUpload 42 (.ok "u")).1.status = 500 ∧
      (gcpPostRoute brokenGcpEnv sampleUpload 42 (.ok "u")).2 = []) ∧
    ((gcpMainDeleteRoute brokenGcpMainEnv (some "cat.jpg") (.ok true) (.ok ())).1.status = 500 ∧
      (gcpMainDeleteRoute brokenGcpMainEnv (some "cat.jpg") (.ok true) (.ok ())).2 = []) ∧
    ((azureListRoute brokenAzureEnv "2024-01-01T00:00:00Z" (.ok [])).1.status = 500 ∧
      (azureListRoute brokenAzureEnv "2024-01-01T00:00:00Z" (.ok [])).2 = []) := by
  refine ⟨?_, ?_, ?_, ?_⟩
  · exact (unconfigured_provider_yields_500_and_no_call.1 brokenAwsEnv rfl).1
      sampleUpload 42 (.ok "u")
  · exact (unconfigured_provider_yields_500_and_no_call.2.1 brokenGcpEnv rfl).1
      sampleUpload 42 (.ok "u")
  · exact (unconfigured_provider_yields_500_and_no_call.2.2.1 brokenGcpMainEnv rfl).2
      (some "cat.jpg") (.ok true) (.ok ())
  · exact (unconfigured_provider_yields_500_and_no_call.2.2.2 brokenAzureEnv rfl).2.2.2
      "2024-01-01T00:00:00Z" (.ok [])

/-- C4: for every provider upload issuance, the returned fileName equals
the concatenation of the millisecond timestamp, a hyphen, and the client
file name; calls with the same file name at different millisecond
timestamps produce different keys; and calls in the same millisecond
produce identical (colliding) keys. -/
theorem upload_key_timestamp_derivation :
    (∀ (t : Nat) (name : String), uniqueObjectKey t name = toString t ++ "-" ++ name) ∧
    (∀ (env : AwsEnv) (cfg : AwsConfig) (body : UploadBody) (now : Nat) (url : String),
      validateAwsEnv env = some cfg →
      strTruthy body.fileName = true → strTruthy body.fileType = true →
      allowedTypes.contains (body.fileType.getD "") = true →
      (numTruthy body.fileSize && body.fileSize.getD 0 > maxSize) = false →
      (awsPostRoute env body now (.ok url)).1.body.getField "fileName" =
        some (.s (toString now ++ "-" ++ body.fileName.getD ""))) ∧
    (∀ (env : GcpEnv) (cfg : GcpConfig) (body : UploadBody) (now : Nat) (url : String),
      validateGcpEnv env = some cfg →
      strTruthy body.fileName = true → strTruthy body.fileType = true →
      (gcpPostRoute env body now (.ok url)).1.body.getField "fileName" =
        some (.s (toString now ++ "-" ++ body.fileName.getD ""))) ∧
    (∀ (env : AzureEnv) (cfg : AzureConfig) (body : UploadBody) (now : Nat) (sas : String),
      validateAzureEnv env = some cfg →
      strTruthy body.fileName = true → strTruthy body.fileType = true →
      (azurePostRoute env body now (.ok sas)).1.body.getField "fileName" =
        some (.s (toString now ++ "-" ++ body.fileName.getD ""))) ∧
    (∀ (t1 t2 : Nat) (name : String), t1 ≠ t2 →
      uniqueObjectKey t1 name ≠ uniqueObjectKey t2 name) ∧
    (∀ (t : Nat) (n1 n2 : String), n1 = n2 → uniqueObjectKey t n1 = uniqueObjectKey t n2) := by
  refine ⟨?_, ?_, ?_, ?_, ?_, ?_⟩
  · intro t name; rfl
  · intro env cfg body now url hv hfn hft hty hsz
    rw [awsPost_success hv hfn hft hty hsz]
    exact issuance_getField_fileName ..
  · intro env cfg body now url hv hfn hft
    rw [gcpPost_success hv hfn hft]
    exact issuance_getField_fileName ..
  · intro env cfg body now sas hv hfn hft
    rw [azurePost_success hv hfn hft]
    exact issuance_getField_fileName ..
  · intro t1 t2 name hne h
    exact hne (uniqueObjectKey_inj_timestamp h)
  · intro t n1 n2 h; rw [h]

/-- Witness for C4: concrete keys at timestamps 41 and 42. -/
theorem upload_key_timestamp_derivation_witness :
    uniqueObjectKey 42 "cat.jpg" = toString 42 ++ "-" ++ "cat.jpg" ∧
    (awsPostRoute sampleAwsEnv sampleUpload 42 (.ok "u")).1.body.getField "fileName" =
      some (.s (toString 42 ++ "-" ++ "cat.jpg")) ∧
    (gcpPostRoute sampleGcpEnv sampleUpload 42 (.ok "u")).1.body.getField "fileName" =
      some (.s (toString 42 ++ "-" ++ "cat.jpg")) ∧
    (azurePostRoute sampleAzureEnv sampleUpload 42 (.ok "s")).1.body.getField "fileName" =
      some (.s (toString 42 ++ "-" ++ "cat.jpg")) ∧
    uniqueObjectKey 41 "cat.jpg" ≠ uniqueObjectKey 42 "cat.jpg" ∧
    uniqueObjectKey 42 "cat.jpg" = uniqueObjectKey 42 "cat.jpg" := by
  refine ⟨?_, ?_, ?_, ?_, ?_, ?_⟩
  · exact upload_key_timestamp_derivation.1 42 "cat.jpg"
  · exact upload_key_timestamp_derivation.2.1 sampleAwsEnv sampleAwsConfig sampleUpload 42 "u"
      rfl rfl rfl rfl rfl
  · exact upload_key_timestamp_derivation.2.2.1 sampleGcpEnv sampleGcpConfig sampleUpload 42 "u"
      rfl rfl rfl
  · exact upload_key_timestamp_derivation.2.2.2.1 sampleAzureEnv sampleAzureConfig
      sampleUpload 42 "s" rfl rfl rfl
  · exact upload_key_timestamp_derivation.2.2.2.2.1 41 42 "cat.jpg" (by decide)
  · exact upload_key_timestamp_derivation.2.2.2.2.2 42 "cat.jpg" "cat.jpg" rfl

/-- Counterexample for C5: the GCP and Azure upload-issuance routes
accept a declared content type outside the allowed image set and a
declared size of 20 MiB, returning success and performing the signing
call, instead of rejecting with a client-input error. -/
theorem upload_validation_counterexample :
    (gcpPostRoute sampleGcpEnv pdfUpload 42 (.ok "u")).1.status = 200 ∧
    (gcpPostRoute sampleGcpEnv pdfUpload 42 (.ok "u")).2 ≠ [] ∧
    (azurePostRoute sampleAzureEnv pdfUpload 42 (.ok "s")).1.status = 200 ∧
    (azurePostRoute sampleAzureEnv pdfUpload 42 (.ok "s")).2 ≠ [] := by
  refine ⟨?_, ?_, ?_, ?_⟩ <;> decide

/-- C5 as amended: only the AWS upload-issuance route enforces the
image-type allow list and the 10 MiB ceiling (rejecting with a 400
client-input error before any signing call); the GCP and Azure upload
routes perform neither check and proceed to signing whenever fileName and
fileType are truthy. -/
theorem upload_validation_aws_only :
    (∀ (env : AwsEnv) (cfg : AwsConfig) (body : UploadBody) (now : Nat)
      (r : Except String String),
      validateAwsEnv env = some cfg →
      strTruthy body.fileName = true → strTruthy body.fileType = true →
      allowedTypes.contains (body.fileType.getD "") = false →
      awsPostRoute env body now r =
        (⟨400, errBody "Invalid file type. Only image files are allowed."⟩, [])) ∧
    (∀ (env : AwsEnv) (cfg : AwsConfig) (body : UploadBody) (now : Nat)
      (r : Except String String),
      validateAwsEnv env = some cfg →
      strTruthy body.fileName = true → strTruthy body.fileType = true →
      allowedTypes.contains (body.fileType.getD "") = true →
      (numTruthy body.fileSize && body.fileSize.getD 0 > maxSize) = true →
      awsPostRoute env body now r =
        (⟨400, errBody "File size too large. Maximum size is 10MB."⟩, [])) ∧
    (∀ (env : GcpEnv) (cfg : GcpConfig) (body : UploadBody) (now : Nat) (url : String),
      validateGcpEnv env = some cfg →
      strTruthy body.fileName = true → strTruthy body.fileType = true →
      (gcpPostRoute env body now (.ok url)).1.status = 200 ∧
        (gcpPostRoute env body now (.ok url)).2 =
          [SdkCall.signUpload .gcp cfg.bucketName
            (uniqueObjectKey now (body.fileName.getD "")) (body.fileType.getD "") 3600]) ∧
    (∀ (env : AzureEnv) (cfg : AzureConfig) (body : UploadBody) (now : Nat) (sas : String),
      validateAzureEnv env = some cfg →
      strTruthy body.fileName = true → strTruthy body.fileType = true →
      (azurePostRoute env body now (.ok sas)).1.status = 200 ∧
        (azurePostRoute env body now (.ok sas)).2 =
          [SdkCall.signUpload .azure cfg.containerName
            (uniqueObjectKey now (body.fileName.getD "")) (body.fileType.getD "") 3600]) := by
  refine ⟨?_, ?_, ?_, ?_⟩
  · intro env cfg body now r hv hfn hft hty
    exact awsPost_badType hv hfn hft hty now r
  · intro env cfg body now r hv hfn hft hty hsz
    exact awsPost_oversize hv hfn hft hty hsz now r
  · intro env cfg body now url hv hfn hft
    rw [gcpPost_success hv hfn hft]
    exact ⟨rfl, rfl⟩
  · intro env cfg body now sas hv hfn hft
    rw [azurePost_success hv hfn hft]
    exact ⟨rfl, rfl⟩

/-- Witness for the amended C5 at concrete inputs. -/
theorem upload_validation_aws_only_witness :
    awsPostRoute sampleAwsEnv pdfUpload 42 (.ok "u") =
      (⟨400, errBody "Invalid file type. Only image files are allowed."⟩, []) ∧
    awsPostRoute sampleAwsEnv oversizeUpload 42 (.ok "u") =
      (⟨400, errBody "File size too large. Maximum size is 10MB."⟩, []) ∧
    ((gcpPostRoute sampleGcpEnv pdfUpload 42 (.ok "u")).1.status = 200 ∧
      (gcpPostRoute sampleGcpEnv pdfUpload 42 (.ok "u")).2 =
        [SdkCall.signUpload .gcp "images-bucket-gcp"
          (uniqueObjectKey 42 "doc.pdf") "application/pdf" 3600]) ∧
    ((azurePostRoute sampleAzureEnv pdfUpload 42 (.ok "s")).1.status = 200 ∧
      (azurePostRoute sampleAzureEnv pdfUpload 42 (.ok "s")).2 =
        [SdkCall.signUpload .azure "images"
          (uniqueObjectKey 42 "doc.pdf") "application/pdf" 3600]) := by
  refine ⟨?_, ?_, ?_, ?_⟩
  · exact upload_validation_aws_only.1 sampleAwsEnv sampleAwsConfig pdfUpload 42 (.ok "u")
      rfl rfl rfl rfl
  · exact upload_validation_aws_only.2.1 sampleAwsEnv sampleAwsConfig oversizeUpload 42
      (.ok "u") rfl rfl rfl rfl (by decide)
  · exact upload_validation_aws_only.2.2.1 sampleGcpEnv sampleGcpConfig pdfUpload 42 "u"
      rfl rfl rfl
  · exact upload_validation_aws_only.2.2.2 sampleAzureEnv sampleAzureConfig pdfUpload 42 "s"
      rfl rfl rfl

/-- Counterexample for C6: the AWS delete-issuance route, given a key
naming an object that does not exist, returns a 200 success issuance (its
response does not depend on storage contents at all) and performs no
existence probe, rather than a not-found-flavored error. -/
theorem delete_missing_object_counterexample :
    (awsDeleteRoute sampleAwsEnv ⟨some "missing.png"⟩ (.ok "u")).1.status = 200 ∧
    (awsDeleteRoute sampleAwsEnv ⟨some "missing.png"⟩ (.ok "u")).2 =
      [SdkCall.signDelete .aws "images-bucket" "missing.png" 300] := by
  exact ⟨rfl, rfl⟩

/-- C6 as amended: only the direct (non-presigned) GCP delete endpoint
probes existence before deletion and returns a 404 not-found error for a
missing object; the presigned delete-issuance endpoints of all three
providers issue the grant without any existence probe, so a delete
request for a missing object succeeds at issuance time. -/
theorem delete_notfound_gcp_direct_only :
    (∀ (env : GcpMainEnv) (cfg : GcpMainConfig) (key : Option String)
      (dr : Except String Unit),
      validateGcpMainEnv env = some cfg → strTruthy key = true →
      gcpMainDeleteRoute env key (.ok false) dr =
        (⟨404, errBody "File not found"⟩,
          [SdkCall.existsObject .gcp cfg.bucketName (key.getD "")])) ∧
    (∀ (env : AwsEnv) (cfg : AwsConfig) (body : KeyBody) (r : Except String String),
      validateAwsEnv env = some cfg → strTruthy body.fileName = true →
      (awsDeleteRoute env body r).2 =
        [SdkCall.signDelete .aws cfg.bucketName (body.fileName.getD "") 300]) ∧
    (∀ (env : GcpEnv) (cfg : GcpConfig) (body : KeyBody) (r : Except String String),
      validateGcpEnv env = some cfg → strTruthy body.fileName = true →
      (gcpDeleteIssuanceRoute env body r).2 =
        [SdkCall.signDelete .gcp cfg.bucketName (body.fileName.getD "") 300]) ∧
    (∀ (env : AzureEnv) (cfg : AzureConfig) (body : KeyBody) (r : Except String String),
      validateAzureEnv env = some cfg → strTruthy body.fileName = true →
      (azureDeleteRoute env body r).2 =
        [SdkCall.signDelete .azure cfg.containerName (body.fileName.getD "") 300]) := by
  refine ⟨?_, ?_, ?_, ?_⟩
  · intro env cfg key dr hv hk
    exact gcpMainDelete_notFound hv hk dr
  · intro env cfg body r hv hfn
    cases r with
    | ok url => rw [awsDelete_success hv hfn]
    | error e => rw [awsDelete_signError hv hfn]
  · intro env cfg body r hv hfn
    cases r with
    | ok url => rw [gcpDeleteIssuance_success hv hfn]
    | error e => rw [gcpDeleteIssuance_signError hv hfn]
  · intro env cfg body r hv hfn
    cases r with
    | ok sas => rw [azureDelete_success hv hfn]
    | error e => rw [azureDelete_signError hv hfn]

/-- Witness for the amended C6 at concrete inputs. -/
theorem delete_notfound_gcp_direct_only_witness :
    gcpMainDeleteRoute sampleGcpMainEnv (some "missing.png") (.ok false) (.ok ()) =
      (⟨404, errBody "File not found"⟩,
        [SdkCall.existsObject .gcp "images-bucket-gcp" "missing.png"]) ∧
    (awsDeleteRoute sampleAwsEnv ⟨some "missing.png"⟩ (.ok "u")).2 =
      [SdkCall.signDelete .aws "images-bucket" "missing.png" 300] ∧
    (gcpDeleteIssuanceRoute sampleGcpEnv ⟨some "missing.png"⟩ (.ok "u")).2 =
      [SdkCall.signDelete .gcp "images-bucket-gcp" "missing.png" 300] ∧
    (azureDeleteRoute sampleAzureEnv ⟨some "missing.png"⟩ (.ok "s")).2 =
      [SdkCall.signDelete .azure "images" "missing.png" 300] := by
  refine ⟨?_, ?_, ?_, ?_⟩
  · exact delete_notfound_gcp_direct_only.1 sampleGcpMainEnv sampleGcpMainConfig
      (some "missing.png") (.ok ()) rfl rfl
  · exact delete_notfound_gcp_direct_only.2.1 sampleAwsEnv sampleAwsConfig
      ⟨some "missing.png"⟩ (.ok "u") rfl rfl
  · exact delete_notfound_gcp_direct_only.2.2.1 sampleGcpEnv sampleGcpConfig
      ⟨some "missing.png"⟩ (.ok "u") rfl rfl
  · exact delete_notfound_gcp_direct_only.2.2.2 sampleAzureEnv sampleAzureConfig
      ⟨some "missing.png"⟩ (.ok "s") rfl rfl


/-- Counterexample for C7: the unconfigured-provider server-error
response carries only an error field, not the claimed error-plus-details
shape the claim asserts for every server-error response. -/
theorem server_error_shape_counterexample :
    (awsPostRoute brokenAwsEnv sampleUpload 42 (.ok "u")).1.status = 500 ∧
    (awsPostRoute brokenAwsEnv sampleUpload 42 (.ok "u")).1.body.fieldNames = ["error"] ∧
    (awsPostRoute brokenAwsEnv sampleUpload 42 (.ok "u")).1.body.fieldNames ≠
      ["error", "details"] := by
  exact ⟨rfl, rfl, by decide⟩

/-- C7 as amended: uniformly across the three providers, every
successful issuance response is a JSON object with exactly the fields
presignedUrl, fileName, expiresIn, message; every signing-failure
response is a 500 with exactly the fields error, details; and the
unconfigured-provider response is a 500 whose body has only an error
field, with no details. -/
theorem response_shapes_uniform :
    (∀ (env : AwsEnv) (cfg : AwsConfig) (body : UploadBody) (now : Nat),
      validateAwsEnv env = some cfg →
      strTruthy body.fileName = true →
      strTruthy body.fileType = true →
      allowedTypes.contains (body.fileType.getD "") = true →
      (numTruthy body.fileSize && body.fileSize.getD 0 > maxSize) = false →
      (∀ (u : String), (awsPostRoute env body now (.ok u)).1.status = 200 ∧
        (awsPostRoute env body now (.ok u)).1.body.fieldNames = ["presignedUrl", "fileName", "expiresIn", "message"]) ∧
      (∀ (e : String), (awsPostRoute env body now (.error e)).1.status = 500 ∧
        (awsPostRoute env body now (.error e)).1.body.fieldNames = ["error", "details"])) ∧
    (∀ (env : GcpEnv) (cfg : GcpConfig) (body : UploadBody) (now : Nat),
      validateGcpEnv env = some cfg →
      strTruthy body.fileName = true →
      strTruthy body.fileType = true →
      (∀ (u : String), (gcpPostRoute env body now (.ok u)).1.status = 200 ∧
        (gcpPostRoute env body now (.ok u)).1.body.fieldNames = ["presignedUrl", "fileName", "expiresIn", "message"]) ∧
      (∀ (e : String), (gcpPostRoute env body now (.error e)).1.status = 500 ∧
        (gcpPostRoute env body now (.error e)).1.body.fieldNames = ["error", "details"])) ∧
    (∀ (env : AzureEnv) (cfg : AzureConfig) (body : UploadBody) (now : Nat),
      validateAzureEnv env = some cfg →
      strTruthy body.fileName = true →
      strTruthy body.fileType = true →
      (∀ (u : String), (azurePostRoute env body now (.ok u)).1.status = 200 ∧
        (azurePostRoute env body now (.ok u)).1.body.fieldNames = ["presignedUrl", "fileName", "expiresIn", "message"]) ∧
      (∀ (e : String), (azurePostRoute env body now (.error e)).1.status = 500 ∧
        (azurePostRoute env body now (.error e)).1.body.fieldNames = ["error", "details"])) ∧
    (∀ (env : AwsEnv) (cfg : AwsConfig) (body : KeyBody),
      validateAwsEnv env = some cfg →
      strTruthy body.fileName = true →
      (∀ (u : String), (awsDownloadRoute env body (.ok u)).1.status = 200 ∧
        (awsDownloadRoute env body (.ok u)).1.body.fieldNames = ["presignedUrl", "fileName", "expiresIn", "message"]) ∧
      (∀ (e : String), (awsDownloadRoute env body (.error e)).1.status = 500 ∧
        (awsDownloadRoute env body (.error e)).1.body.fieldNames = ["error", "details"])) ∧
    (∀ (env : GcpEnv) (cfg : GcpConfig) (body : KeyBody),
      validateGcpEnv env = some cfg →
      strTruthy body.fileName = true →
      (∀ (u : String), (gcpDownloadRoute env body (.ok u)).1.status = 200 ∧
        (gcpDownloadRoute env body (.ok u)).1.body.fieldNames = ["presignedUrl", "fileName", "expiresIn", "message"]) ∧
      (∀ (e : String), (gcpDownloadRoute env body (.error e)).1.status = 500 ∧
        (gcpDownloadRoute env body (.error e)).1.body.fieldNames = ["error", "details"])) ∧
    (∀ (env : AzureEnv) (cfg : AzureConfig) (body : KeyBody),
      validateAzureEnv env = some cfg →
      strTruthy body.fileName = true →
      (∀ (u : String), (azureDownloadRoute env body (.ok u)).1.status = 200 ∧
        (azureDownloadRoute env body (.ok u)).1.body.fieldNames = ["presignedUrl", "fileName", "expiresIn", "message"]) ∧
      (∀ (e : String), (azureDownloadRoute env body (.error e)).1.status = 500 ∧
        (azureDownloadRoute env body (.error e)).1.body.fieldNames = ["error", "details"])) ∧
    (∀ (env : AwsEnv) (cfg : AwsConfig) (body : KeyBody),
      validateAwsEnv env = some cfg →
      strTruthy body.fileName = true →
      (∀ (u : String), (awsDeleteRoute env body (.ok u)).1.status = 200 ∧
        (awsDeleteRoute env body (.ok u)).1.body.fieldNames = ["presignedUrl", "fileName", "expiresIn", "message"]) ∧
      (∀ (e : String), (awsDeleteRoute env body (.error e)).1.status = 500 ∧
        (awsDeleteRoute env body (.error e)).1.body.fieldNames = ["error", "details"])) ∧
    (∀ (env : GcpEnv) (cfg : GcpConfig) (body : KeyBody),
      validateGcpEnv env = some cfg →
      strTruthy body.fileName = true →
      (∀ (u : String), (gcpDeleteIssuanceRoute env body (.ok u)).1.status = 200 ∧
        (gcpDeleteIssuanceRoute env body (.ok u)).1.body.fieldNames = ["presignedUrl", "fileName", "expiresIn", "message"]) ∧
      (∀ (e : String), (gcpDeleteIssuanceRoute env body (.error e)).1.status = 500 ∧
        (gcpDeleteIssuanceRoute env body (.error e)).1.body.fieldNames = ["error", "details"])) ∧
    (∀ (env : AzureEnv) (cfg : AzureConfig) (body : KeyBody),
      validateAzureEnv env = some cfg →
      strTruthy body.fileName = true →
      (∀ (u : String), (azureDeleteRoute env body (.ok u)).1.status = 200 ∧
        (azureDeleteRoute env body (.ok u)).1.body.fieldNames = ["presignedUrl", "fileName", "expiresIn", "message"]) ∧
      (∀ (e : String), (azureDeleteRoute env body (.error e)).1.status = 500 ∧
        (azureDeleteRoute env body (.error e)).1.body.fieldNames = ["error", "details"])) ∧
    (∀ (env : AwsEnv) (body : UploadBody) (now : Nat) (r : Except String String),
      validateAwsEnv env = none →
      (awsPostRoute env body now r).1.status = 500 ∧ (awsPostRoute env body now r).1.body.fieldNames = ["error"]) ∧
    (∀ (env : GcpEnv) (body : UploadBody) (now : Nat) (r : Except String String),
      validateGcpEnv env = none →
      (gcpPostRoute env body now r).1.status = 500 ∧ (gcpPostRoute env body now r).1.body.fieldNames = ["error"]) ∧
    (∀ (env : AzureEnv) (body : UploadBody) (now : Nat) (r : Except String String),
      validateAzureEnv env = none →
      (azurePostRoute env body now r).1.status = 500 ∧ (azurePostRoute env body now r).1.body.fieldNames = ["error"]) ∧
    (∀ (env : AwsEnv) (body : KeyBody) (r : Except String String),
      validateAwsEnv env = none →
      (awsDownloadRoute env body r).1.status = 500 ∧ (awsDownloadRoute env body r).1.body.fieldNames = ["error"]) ∧
    (∀ (env : GcpEnv) (body : KeyBody) (r : Except String String),
      validateGcpEnv env = none →
      (gcpDownloadRoute env body r).1.status = 500 ∧ (gcpDownloadRoute env body r).1.body.fieldNames = ["error"]) ∧
    (∀ (env : AzureEnv) (body : KeyBody) (r : Except String String),
      validateAzureEnv env = none →
      (azureDownloadRoute env body r).1.status = 500 ∧ (azureDownloadRoute env body r).1.body.fieldNames = ["error"]) ∧
    (∀ (env : AwsEnv) (body : KeyBody) (r : Except String String),
      validateAwsEnv env = none →
      (awsDeleteRoute env body r).1.status = 500 ∧ (awsDeleteRoute env body r).1.body.fieldNames = ["error"]) ∧
    (∀ (env : GcpEnv) (body : KeyBody) (r : Except String String),
      validateGcpEnv env = none →
      (gcpDeleteIssuanceRoute env body r).1.status = 500 ∧ (gcpDeleteIssuanceRoute env body r).1.body.fieldNames = ["error"]) ∧
    (∀ (env : AzureEnv) (body : KeyBody) (r : Except String String),
      validateAzureEnv env = none →
      (azureDeleteRoute env body r).1.status = 500 ∧ (azureDeleteRoute env body r).1.body.fieldNames = ["error"]) := by
  refine ⟨?_, ?_, ?_, ?_, ?_, ?_, ?_, ?_, ?_, ?_, ?_, ?_, ?_, ?_, ?_, ?_, ?_, ?_⟩
  · intro env cfg body now hv hfn hft hty hsz
    constructor
    · intro u
      rw [awsPost_success hv hfn hft hty hsz]
      exact ⟨rfl, rfl⟩
    · intro e
      rw [awsPost_signError hv hfn hft hty hsz]
      exact ⟨rfl, rfl⟩
  · intro env cfg body now hv hfn hft
    constructor
    · intro u
      rw [gcpPost_success hv hfn hft]
      exact ⟨rfl, rfl⟩
    · intro e
      rw [gcpPost_signError hv hfn hft]
      exact ⟨rfl, rfl⟩
  · intro env cfg body now hv hfn hft
    constructor
    · intro u
      rw [azurePost_success hv hfn hft]
      exact ⟨rfl, rfl⟩
    · intro e
      rw [azurePost_signError hv hfn hft]
      exact ⟨rfl, rfl⟩
  · intro env cfg body hv hfn
    constructor
    · intro u
      rw [awsDownload_success hv hfn]
      exact ⟨rfl, rfl⟩
    · intro e
      rw [awsDownload_signError hv hfn]
      exact ⟨rfl, rfl⟩
  · intro env cfg body hv hfn
    constructor
    · intro u
      rw [gcpDownload_success hv hfn]
      exact ⟨rfl, rfl⟩
    · intro e
      rw [gcpDownload_signError hv hfn]
      exact ⟨rfl, rfl⟩
  · intro env cfg body hv hfn
    constructor
    · intro u
      rw [azureDownload_success hv hfn]
      exact ⟨rfl, rfl⟩
    · intro e
      rw [azureDownload_signError hv hfn]
      exact ⟨rfl, rfl⟩
  · intro env cfg body hv hfn
    constructor
    · intro u
      rw [awsDelete_success hv hfn]
      exact ⟨rfl, rfl⟩
    · intro e
      rw [awsDelete_signError hv hfn]
      exact ⟨rfl, rfl⟩
  · intro env cfg body hv hfn
    constructor
    · intro u
      rw [gcpDeleteIssuance_success hv hfn]
      exact ⟨rfl, rfl⟩
    · intro e
      rw [gcpDeleteIssuance_signError hv hfn]
      exact ⟨rfl, rfl⟩
  · intro env cfg body hv hfn
    constructor
    · intro u
      rw [azureDelete_success hv hfn]
      exact ⟨rfl, rfl⟩
    · intro e
      rw [azureDelete_signError hv hfn]
      exact ⟨rfl, rfl⟩
  · intro env body now r hv
    rw [awsPost_unconfigured hv]
    exact ⟨rfl, rfl⟩
  · intro env body now r hv
    rw [gcpPost_unconfigured hv]
    exact ⟨rfl, rfl⟩
  · intro env body now r hv
    rw [azurePost_unconfigured hv]
    exact ⟨rfl, rfl⟩
  · intro env body r hv
    rw [awsDownload_unconfigured hv]
    exact ⟨rfl, rfl⟩
  · intro env body r hv
    rw [gcpDownload_unconfigured hv]
    exact ⟨rfl, rfl⟩
  · intro env body r hv
    rw [azureDownload_unconfigured hv]
    exact ⟨rfl, rfl⟩
  · intro env body r hv
    rw [awsDelete_unconfigured hv]
    exact ⟨rfl, rfl⟩
  · intro env body r hv
    rw [gcpDeleteIssuance_unconfigured hv]
    exact ⟨rfl, rfl⟩
  · intro env body r hv
    rw [azureDelete_unconfigured hv]
    exact ⟨rfl, rfl⟩

/-- Witness for the amended C7 at concrete inputs, covering the success,
signing-failure, and unconfigured branches of all nine issuance routes. -/
theorem response_shapes_uniform_witness :
    ((awsPostRoute sampleAwsEnv sampleUpload 42 (.ok "x")).1.body.fieldNames = ["presignedUrl", "fileName", "expiresIn", "message"]) ∧
    ((awsPostRoute sampleAwsEnv sampleUpload 42 (.error "boom")).1.status = 500 ∧
      (awsPostRoute sampleAwsEnv sampleUpload 42 (.error "boom")).1.body.fieldNames = ["error", "details"]) ∧
    ((gcpPostRoute sampleGcpEnv sampleUpload 42 (.ok "x")).1.body.fieldNames = ["presignedUrl", "fileName", "expiresIn", "message"]) ∧
    ((gcpPostRoute sampleGcpEnv sampleUpload 42 (.error "boom")).1.status = 500 ∧
      (gcpPostRoute sampleGcpEnv sampleUpload 42 (.error "boom")).1.body.fieldNames = ["error", "details"]) ∧
    ((azurePostRoute sampleAzureEnv sampleUpload 42 (.ok "x")).1.body.fieldNames = ["presignedUrl", "fileName", "expiresIn", "message"]) ∧
    ((azurePostRoute sampleAzureEnv sampleUpload 42 (.error "boom")).1.status = 500 ∧
      (azurePostRoute sampleAzureEnv sampleUpload 42 (.error "boom")).1.body.fieldNames = ["error", "details"]) ∧
    ((awsDownloadRoute sampleAwsEnv sampleKey (.ok "x")).1.body.fieldNames = ["presignedUrl", "fileName", "expiresIn", "message"]) ∧
    ((awsDownloadRoute sampleAwsEnv sampleKey (.error "boom")).1.status = 500 ∧
      (awsDownloadRoute sampleAwsEnv sampleKey (.error "boom")).1.body.fieldNames = ["error", "details"]) ∧
    ((gcpDownloadRoute sampleGcpEnv sampleKey (.ok "x")).1.body.fieldNames = ["presignedUrl", "fileName", "expiresIn", "message"]) ∧
    ((gcpDownloadRoute sampleGcpEnv sampleKey (.error "boom")).1.status = 500 ∧
      (gcpDownloadRoute sampleGcpEnv sampleKey (.error "boom")).1.body.fieldNames = ["error", "details"]) ∧
    ((azureDownloadRoute sampleAzureEnv sampleKey (.ok "x")).1.body.fieldNames = ["presignedUrl", "fileName", "expiresIn", "message"]) ∧
    ((azureDownloadRoute sampleAzureEnv sampleKey (.error "boom")).1.status = 500 ∧
      (azureDownloadRoute sampleAzureEnv sampleKey (.error "boom")).1.body.fieldNames = ["error", "details"]) ∧
    ((awsDeleteRoute sampleAwsEnv sampleKey (.ok "x")).1.body.fieldNames = ["presignedUrl", "fileName", "expiresIn", "message"]) ∧
    ((awsDeleteRoute sampleAwsEnv sampleKey (.error "boom")).1.status = 500 ∧
      (awsDeleteRoute sampleAwsEnv sampleKey (.error "boom")).1.body.fieldNames = ["error", "details"]) ∧
    ((gcpDeleteIssuanceRoute sampleGcpEnv sampleKey (.ok "x")).1.body.fieldNames = ["presignedUrl", "fileName", "expiresIn", "message"]) ∧
    ((gcpDeleteIssuanceRoute sampleGcpEnv sampleKey (.error "boom")).1.status = 500 ∧
      (gcpDeleteIssuanceRoute sampleGcpEnv sampleKey (.error "boom")).1.body.fieldNames = ["error", "details"]) ∧
    ((azureDeleteRoute sampleAzureEnv sampleKey (.ok "x")).1.body.fieldNames = ["presignedUrl", "fileName", "expiresIn", "message"]) ∧
    ((azureDeleteRoute sampleAzureEnv sampleKey (.error "boom")).1.status = 500 ∧
      (azureDeleteRoute sampleAzureEnv sampleKey (.error "boom")).1.body.fieldNames = ["error", "details"]) ∧
    ((awsPostRoute brokenAwsEnv sampleUpload 42 (.ok "u")).1.status = 500 ∧
      (awsPostRoute brokenAwsEnv sampleUpload 42 (.ok "u")).1.body.fieldNames = ["error"]) ∧
    ((gcpPostRoute brokenGcpEnv sampleUpload 42 (.ok "u")).1.status = 500 ∧
      (gcpPostRoute brokenGcpEnv sampleUpload 42 (.ok "u")).1.body.fieldNames = ["error"]) ∧
    ((azurePostRoute brokenAzureEnv sampleUpload 42 (.ok "s")).1.status = 500 ∧
      (azurePostRoute brokenAzureEnv sampleUpload 42 (.ok "s")).1.body.fieldNames = ["error"]) ∧
    ((awsDownloadRoute brokenAwsEnv sampleKey (.ok "u")).1.status = 500 ∧
      (awsDownloadRoute brokenAwsEnv sampleKey (.ok "u")).1.body.fieldNames = ["error"]) ∧
    ((gcpDownloadRoute brokenGcpEnv sampleKey (.ok "u")).1.status = 500 ∧
      (gcpDownloadRoute brokenGcpEnv sampleKey (.ok "u")).1.body.fieldNames = ["error"]) ∧
    ((azureDownloadRoute brokenAzureEnv sampleKey (.ok "s")).1.status = 500 ∧
      (azureDownloadRoute brokenAzureEnv sampleKey (.ok "s")).1.body.fieldNames = ["error"]) ∧
    ((awsDeleteRoute brokenAwsEnv sampleKey (.ok "u")).1.status = 500 ∧
      (awsDeleteRoute brokenAwsEnv sampleKey (.ok "u")).1.body.fieldNames = ["error"]) ∧
    ((gcpDeleteIssuanceRoute brokenGcpEnv sampleKey (.ok "u")).1.status = 500 ∧
      (gcpDeleteIssuanceRoute brokenGcpEnv sampleKey (.ok "u")).1.body.fieldNames = ["error"]) ∧
    ((azureDeleteRoute brokenAzureEnv sampleKey (.ok "s")).1.status = 500 ∧
      (azureDeleteRoute brokenAzureEnv sampleKey (.ok "s")).1.body.fieldNames = ["error"]) := by
  refine ⟨?_, ?_, ?_, ?_, ?_, ?_, ?_, ?_, ?_, ?_, ?_, ?_, ?_, ?_, ?_, ?_, ?_, ?_, ?_, ?_, ?_, ?_, ?_, ?_, ?_, ?_, ?_⟩
  · exact ((response_shapes_uniform.1 sampleAwsEnv sampleAwsConfig sampleUpload 42 rfl rfl rfl rfl rfl).1 "x").2
  · exact (response_shapes_uniform.1 sampleAwsEnv sampleAwsConfig sampleUpload 42 rfl rfl rfl rfl rfl).2 "boom"
  · exact ((response_shapes_uniform.2.1 sampleGcpEnv sampleGcpConfig sampleUpload 42 rfl rfl rfl).1 "x").2
  · exact (response_shapes_uniform.2.1 sampleGcpEnv sampleGcpConfig sampleUpload 42 rfl rfl rfl).2 "boom"
  · exact ((response_shapes_uniform.2.2.1 sampleAzureEnv sampleAzureConfig sampleUpload 42 rfl rfl rfl).1 "x").2
  · exact (response_shapes_uniform.2.2.1 sampleAzureEnv sampleAzureConfig sampleUpload 42 rfl rfl rfl).2 "boom"
  · exact ((response_shapes_uniform.2.2.2.1 sampleAwsEnv sampleAwsConfig sampleKey rfl rfl).1 "x").2
  · exact (response_shapes_uniform.2.2.2.1 sampleAwsEnv sampleAwsConfig sampleKey rfl rfl).2 "boom"
  · exact ((response_shapes_uniform.2.2.2.2.1 sampleGcpEnv sampleGcpConfig sampleKey rfl rfl).1 "x").2
  · exact (response_shapes_uniform.2.2.2.2.1 sampleGcpEnv sampleGcpConfig sampleKey rfl rfl).2 "boom"
  · exact ((response_shapes_uniform.2.2.2.2.2.1 sampleAzureEnv sampleAzureConfig sampleKey rfl rfl).1 "x").2
  · exact (response_shapes_uniform.2.2.2.2.2.1 sampleAzureEnv sampleAzureConfig sampleKey rfl rfl).2 "boom"
  · exact ((response_shapes_uniform.2.2.2.2.2.2.1 sampleAwsEnv sampleAwsConfig sampleKey rfl rfl).1 "x").2
  · exact (response_shapes_uniform.2.2.2.2.2.2.1 sampleAwsEnv sampleAwsConfig sampleKey rfl rfl).2 "boom"
  · exact ((response_shapes_uniform.2.2.2.2.2.2.2.1 sampleGcpEnv sampleGcpConfig sampleKey rfl rfl).1 "x").2
  · exact (response_shapes_uniform.2.2.2.2.2.2.2.1 sampleGcpEnv sampleGcpConfig sampleKey rfl rfl).2 "boom"
  · exact ((response_shapes_uniform.2.2.2.2.2.2.2.2.1 sampleAzureEnv sampleAzureConfig sampleKey rfl rfl).1 "x").2
  · exact (response_shapes_uniform.2.2.2.2.2.2.2.2.1 sampleAzureEnv sampleAzureConfig sampleKey rfl rfl).2 "boom"
  · exact response_shapes_uniform.2.2.2.2.2.2.2.2.2.1 brokenAwsEnv sampleUpload 42 (.ok "u") rfl
  · exact response_shapes_uniform.2.2.2.2.2.2.2.2.2.2.1 brokenGcpEnv sampleUpload 42 (.ok "u") rfl
  · exact response_shapes_uniform.2.2.2.2.2.2.2.2.2.2.2.1 brokenAzureEnv sampleUpload 42 (.ok "s") rfl
  · exact response_shapes_uniform.2.2.2.2.2.2.2.2.2.2.2.2.1 brokenAwsEnv sampleKey (.ok "u") rfl
  · exact response_shapes_uniform.2.2.2.2.2.2.2.2.2.2.2.2.2.1 brokenGcpEnv sampleKey (.ok "u") rfl
  · exact response_shapes_uniform.2.2.2.2.2.2.2.2.2.2.2.2.2.2.1 brokenAzureEnv sampleKey (.ok "s") rfl
  · exact response_shapes_uniform.2.2.2.2.2.2.2.2.2.2.2.2.2.2.2.1 brokenAwsEnv sampleKey (.ok "u") rfl
  · exact response_shapes_uniform.2.2.2.2.2.2.2.2.2.2.2.2.2.2.2.2.1 brokenGcpEnv sampleKey (.ok "u") rfl
  · exact response_shapes_uniform.2.2.2.2.2.2.2.2.2.2.2.2.2.2.2.2.2 brokenAzureEnv sampleKey (.ok "s") rfl

/-- Counterexample for C8: the list branch of the direct GCP route maps
each object to a four-field record carrying contentType in addition to
name, size and lastModified, so its entries are not exactly the uniform
three-field shape. -/
theorem list_shape_counterexample :
    (gcpMainListRoute sampleGcpMainEnv (.ok [sampleGcpObject])).1.body =
      .obj [("files", .arr [gcpMainFileJson sampleGcpObject])] ∧
    (gcpMainFileJson sampleGcpObject).fieldNames =
      ["name", "size", "lastModified", "contentType"] ∧
    (gcpMainFileJson sampleGcpObject).fieldNames ≠ ["name", "size", "lastModified"] := by
  exact ⟨rfl, rfl, by decide⟩

/-- C8 as amended: the AWS and Azure list endpoints map each
provider-returned object, in provider order, to exactly
the fields name, size, lastModified; the direct GCP list endpoint maps in
provider order to those three fields plus a fourth, contentType. -/
theorem list_mapping_uniform_shape :
    (∀ (env : AwsEnv) (cfg : AwsConfig) (objs : List S3Object),
      validateAwsEnv env = some cfg →
      awsListRoute env (.ok objs) =
        (⟨200, .obj [("files", .arr (objs.map awsFileJson))]⟩,
          [SdkCall.listObjects .aws cfg.bucketName])) ∧
    (∀ (o : S3Object), (awsFileJson o).fieldNames = ["name", "size", "lastModified"]) ∧
    (∀ (env : AzureEnv) (cfg : AzureConfig) (nowIso : String) (blobs : List AzureBlob),
      validateAzureEnv env = some cfg →
      azureListRoute env nowIso (.ok blobs) =
        (⟨200, .obj [("files", .arr (blobs.map (azureFileJson nowIso)))]⟩,
          [SdkCall.listObjects .azure cfg.containerName])) ∧
    (∀ (nowIso : String) (o : AzureBlob),
      (azureFileJson nowIso o).fieldNames = ["name", "size", "lastModified"]) ∧
    (∀ (env : GcpMainEnv) (cfg : GcpMainConfig) (objs : List GcpObject),
      validateGcpMainEnv env = some cfg →
      gcpMainListRoute env (.ok objs) =
        (⟨200, .obj [("files", .arr (objs.map gcpMainFileJson))]⟩,
          [SdkCall.listObjects .gcp cfg.bucketName])) ∧
    (∀ (o : GcpObject),
      (gcpMainFileJson o).fieldNames = ["name", "size", "lastModified", "contentType"]) := by
  refine ⟨?_, ?_, ?_, ?_, ?_, ?_⟩
  · intro env cfg objs hv; exact awsList_ok hv objs
  · intro o; rfl
  · intro env cfg nowIso blobs hv; exact azureList_ok hv nowIso blobs
  · intro nowIso o; rfl
  · intro env cfg objs hv; exact gcpMainList_ok hv objs
  · intro o; rfl

/-- Witness for the amended C8 at concrete inputs, exercising a two-entry
listing per provider (order preserved as given). -/
theorem list_mapping_uniform_shape_witness :
    awsListRoute sampleAwsEnv
        (.ok [⟨"a.png", 1, "t1"⟩, ⟨"b.png", 2, "t2"⟩]) =
      (⟨200, .obj [("files", .arr
          [awsFileJson ⟨"a.png", 1, "t1"⟩, awsFileJson ⟨"b.png", 2, "t2"⟩])]⟩,
        [SdkCall.listObjects .aws "images-bucket"]) ∧
    (awsFileJson ⟨"a.png", 1, "t1"⟩).fieldNames = ["name", "size", "lastModified"] ∧
    azureListRoute sampleAzureEnv "now"
        (.ok [⟨"a.png", some 1, some "t1"⟩, ⟨"b.png", none, none⟩]) =
      (⟨200, .obj [("files", .arr
          [azureFileJson "now" ⟨"a.png", some 1, some "t1"⟩,
           azureFileJson "now" ⟨"b.png", none, none⟩])]⟩,
        [SdkCall.listObjects .azure "images"]) ∧
    (azureFileJson "now" ⟨"b.png", none, none⟩).fieldNames =
      ["name", "size", "lastModified"] ∧
    gcpMainListRoute sampleGcpMainEnv (.ok [sampleGcpObject]) =
      (⟨200, .obj [("files", .arr [gcpMainFileJson sampleGcpObject])]⟩,
        [SdkCall.listObjects .gcp "images-bucket-gcp"]) ∧
    (gcpMainFileJson sampleGcpObject).fieldNames =
      ["name", "size", "lastModified", "contentType"] := by
  refine ⟨?_, ?_, ?_, ?_, ?_, ?_⟩
  · exact list_mapping_uniform_shape.1 sampleAwsEnv sampleAwsConfig
      [⟨"a.png", 1, "t1"⟩, ⟨"b.png", 2, "t2"⟩] rfl
  · exact list_mapping_uniform_shape.2.1 ⟨"a.png", 1, "t1"⟩
  · exact list_mapping_uniform_shape.2.2.1 sampleAzureEnv sampleAzureConfig "now"
      [⟨"a.png", some 1, some "t1"⟩, ⟨"b.png", none, none⟩] rfl
  · exact list_mapping_uniform_shape.2.2.2.1 "now" ⟨"b.png", none, none⟩
  · exact list_mapping_uniform_shape.2.2.2.2.1 sampleGcpMainEnv sampleGcpMainConfig
      [sampleGcpObject] rfl
  · exact list_mapping_uniform_shape.2.2.2.2.2 sampleGcpObject

/-- Counterexample for C9: the AWS upload-completion route performs no
provider-initialization check at all (it takes no provider state), so a
request lacking fileName receives the 400 client-input error rather than
a 500 configuration error, whatever the provider environment looks like. -/
theorem completion_route_counterexample :
    awsResponseRoute ⟨none, none, none⟩ "2024-01-01T00:00:00Z" =
      (⟨400, errBody "Missing required field: fileName is required"⟩, []) ∧
    (awsResponseRoute ⟨none, none, none⟩ "2024-01-01T00:00:00Z").1.status ≠ 500 := by
  exact ⟨rfl, by decide⟩

/-- C9 as amended: on every issuance route the initialization check takes
precedence over field validation — an unconfigured provider yields the
500 configuration error even when fileName is also missing — while the
completion routes perform no initialization check and return the 400
client-input error for a missing fileName regardless of provider
configuration. -/
theorem init_check_precedence :
    (∀ (env : AwsEnv) (body : UploadBody) (now : Nat) (r : Except String String),
      validateAwsEnv env = none → strTruthy body.fileName = false →
      awsPostRoute env body now r =
        (⟨500, errBody "AWS client not initialized. Please check environment variables."⟩, [])) ∧
    (∀ (env : GcpEnv) (body : UploadBody) (now : Nat) (r : Except String String),
      validateGcpEnv env = none → strTruthy body.fileName = false →
      gcpPostRoute env body now r =
        (⟨500, errBody "GCP Storage client not initialized. Please check environment variables."⟩, [])) ∧
    (∀ (env : AzureEnv) (body : UploadBody) (now : Nat) (r : Except String String),
      validateAzureEnv env = none → strTruthy body.fileName = false →
      azurePostRoute env body now r =
        (⟨500, errBody "Azure Blob Service client not initialized. Please check environment variables."⟩, [])) ∧
    (∀ (env : AwsEnv) (body : KeyBody) (r : Except String String),
      validateAwsEnv env = none → strTruthy body.fileName = false →
      (awsDownloadRoute env body r).1.status = 500 ∧
        (awsDeleteRoute env body r).1.status = 500) ∧
    (∀ (env : GcpEnv) (body : KeyBody) (r : Except String String),
      validateGcpEnv env = none → strTruthy body.fileName = false →
      (gcpDownloadRoute env body r).1.status = 500 ∧
        (gcpDeleteIssuanceRoute env body r).1.status = 500) ∧
    (∀ (env : AzureEnv) (body : KeyBody) (r : Except String String),
      validateAzureEnv env = none → strTruthy body.fileName = false →
      (azureDownloadRoute env body r).1.status = 500 ∧
        (azureDeleteRoute env body r).1.status = 500) ∧
    (∀ (body : CompletionBody) (nowIso : String),
      strTruthy body.fileName = false →
      awsResponseRoute body nowIso =
        (⟨400, errBody "Missing required field: fileName is required"⟩, [])) ∧
    (∀ (body : CompletionBody) (nowIso : String),
      strTruthy body.fileName = false →
      gcpResponseRoute body nowIso =
        (⟨400, errBody "Missing required field: fileName is required"⟩, [])) := by
  refine ⟨?_, ?_, ?_, ?_, ?_, ?_, ?_, ?_⟩
  · intro env body now r hv _; exact awsPost_unconfigured hv body now r
  · intro env body now r hv _; exact gcpPost_unconfigured hv body now r
  · intro env body now r hv _; exact azurePost_unconfigured hv body now r
  · intro env body r hv _
    rw [awsDownload_unconfigured hv, awsDelete_unconfigured hv]
    exact ⟨rfl, rfl⟩
  · intro env body r hv _
    rw [gcpDownload_unconfigured hv, gcpDeleteIssuance_unconfigured hv]
    exact ⟨rfl, rfl⟩
  · intro env body r hv _
    rw [azureDownload_unconfigured hv, azureDelete_unconfigured hv]
    exact ⟨rfl, rfl⟩
  · intro body nowIso hfn; simp [awsResponseRoute, hfn]
  · intro body nowIso hfn; simp [gcpResponseRoute, hfn]

/-- Witness for the amended C9: requests that lack fileName against
unconfigured providers (500 on issuance routes) and against the
completion routes (400, no configuration involved). -/
theorem init_check_precedence_witness :
    awsPostRoute brokenAwsEnv ⟨none, some "image/png", none⟩ 42 (.ok "u") =
      (⟨500, errBody "AWS client not initialized. Please check environment variables."⟩, []) ∧
    gcpPostRoute brokenGcpEnv ⟨none, some "image/png", none⟩ 42 (.ok "u") =
      (⟨500, errBody "GCP Storage client not initialized. Please check environment variables."⟩, []) ∧
    azurePostRoute brokenAzureEnv ⟨none, some "image/png", none⟩ 42 (.ok "s") =
      (⟨500, errBody "Azure Blob Service client not initialized. Please check environment variables."⟩, []) ∧
    ((awsDownloadRoute brokenAwsEnv ⟨none⟩ (.ok "u")).1.status = 500 ∧
      (awsDeleteRoute brokenAwsEnv ⟨none⟩ (.ok "u")).1.status = 500) ∧
    ((gcpDownloadRoute brokenGcpEnv ⟨none⟩ (.ok "u")).1.status = 500 ∧
      (gcpDeleteIssuanceRoute brokenGcpEnv ⟨none⟩ (.ok "u")).1.status = 500) ∧
    ((azureDownloadRoute brokenAzureEnv ⟨none⟩ (.ok "s")).1.status = 500 ∧
      (azureDeleteRoute brokenAzureEnv ⟨none⟩ (.ok "s")).1.status = 500) ∧
    awsResponseRoute ⟨none, none, none⟩ "t" =
      (⟨400, errBody "Missing required field: fileName is required"⟩, []) ∧
    gcpResponseRoute ⟨none, none, none⟩ "t" =
      (⟨400, errBody "Missing required field: fileName is required"⟩, []) := by
  refine ⟨?_, ?_, ?_, ?_, ?_, ?_, ?_, ?_⟩
  · exact init_check_precedence.1 brokenAwsEnv ⟨none, some "image/png", none⟩ 42 (.ok "u")
      rfl rfl
  · exact init_check_precedence.2.1 brokenGcpEnv ⟨none, some "image/png", none⟩ 42 (.ok "u")
      rfl rfl
  · exact init_check_precedence.2.2.1 brokenAzureEnv ⟨none, some "image/png", none⟩ 42
      (.ok "s") rfl rfl
  · exact init_check_precedence.2.2.2.1 brokenAwsEnv ⟨none⟩ (.ok "u") rfl rfl
  · exact init_check_precedence.2.2.2.2.1 brokenGcpEnv ⟨none⟩ (.ok "u") rfl rfl
  · exact init_check_precedence.2.2.2.2.2.1 brokenAzureEnv ⟨none⟩ (.ok "s") rfl rfl
  · exact init_check_precedence.2.2.2.2.2.2.1 ⟨none, none, none⟩ "t" rfl
  · exact init_check_precedence.2.2.2.2.2.2.2 ⟨none, none, none⟩ "t" rfl

/-- C10: the AWS upload size ceiling is a strict, truthiness-guarded
comparison: a declared fileSize of exactly 10485760 bytes is accepted; an
absent or zero (JS-falsy) fileSize bypasses the size check and the
request is accepted; and with a declared fileSize of n, the size
rejection fires exactly when n is truthy and strictly greater than
10485760. -/
theorem size_ceiling_strict_truthiness_guarded :
    (∀ (env : AwsEnv) (cfg : AwsConfig) (body : UploadBody) (now : Nat) (url : String),
      validateAwsEnv env = some cfg →
      strTruthy body.fileName = true → strTruthy body.fileType = true →
      allowedTypes.contains (body.fileType.getD "") = true →
      body.fileSize = some 10485760 →
      (awsPostRoute env body now (.ok url)).1.status = 200) ∧
    (∀ (env : AwsEnv) (cfg : AwsConfig) (body : UploadBody) (now : Nat) (url : String),
      validateAwsEnv env = some cfg →
      strTruthy body.fileName = true → strTruthy body.fileType = true →
      allowedTypes.contains (body.fileType.getD "") = true →
      body.fileSize = none ∨ body.fileSize = some 0 →
      (awsPostRoute env body now (.ok url)).1.status = 200) ∧
    (∀ (env : AwsEnv) (cfg : AwsConfig) (body : UploadBody) (now : Nat) (url : String)
      (n : Int),
      validateAwsEnv env = some cfg →
      strTruthy body.fileName = true → strTruthy body.fileType = true →
      allowedTypes.contains (body.fileType.getD "") = true →
      body.fileSize = some n →
      ((awsPostRoute env body now (.ok url)).1 =
          ⟨400, errBody "File size too large. Maximum size is 10MB."⟩ ↔
        n ≠ 0 ∧ n > 10485760)) := by
  have hmax : maxSize = 10485760 := by norm_num [maxSize]
  refine ⟨?_, ?_, ?_⟩
  · intro env cfg body now url hv hfn hft hty hs
    have hsz : (numTruthy body.fileSize && body.fileSize.getD 0 > maxSize) = false := by
      simp [hs, numTruthy, hmax]
    rw [awsPost_success hv hfn hft hty hsz]
  · intro env cfg body now url hv hfn hft hty hs
    have hsz : (numTruthy body.fileSize && body.fileSize.getD 0 > maxSize) = false := by
      rcases hs with hs | hs <;> simp [hs, numTruthy]
    rw [awsPost_success hv hfn hft hty hsz]
  · intro env cfg body now url n hv hfn hft hty hs
    constructor
    · intro heq
      by_cases hg : (numTruthy body.fileSize && body.fileSize.getD 0 > maxSize) = true
      · rw [hs] at hg
        simp [numTruthy, hmax] at hg
        exact ⟨hg.1, hg.2⟩
      · have hsz : (numTruthy body.fileSize && body.fileSize.getD 0 > maxSize) = false :=
          Bool.not_eq_true _ ▸ Bool.of_not_eq_true hg
        rw [awsPost_success hv hfn hft hty hsz] at heq
        have h200 := congrArg Resp.status heq
        simp at h200
    · intro hgt
      have hsz : (numTruthy body.fileSize && body.fileSize.getD 0 > maxSize) = true := by
        simp [hs, numTruthy, hmax, hgt.1, hgt.2]
      rw [awsPost_oversize hv hfn hft hty hsz]

/-- Witness for C10: a 10485760-byte declaration is accepted, absent and
zero declarations are accepted, 10485761 is rejected and 10485760 is not
(via the iff). -/
theorem size_ceiling_strict_truthiness_guarded_witness :
    (awsPostRoute sampleAwsEnv ⟨some "cat.jpg", some "image/jpeg", some 10485760⟩ 42
        (.ok "u")).1.status = 200 ∧
    (awsPostRoute sampleAwsEnv ⟨some "cat.jpg", some "image/jpeg", none⟩ 42
        (.ok "u")).1.status = 200 ∧
    (awsPostRoute sampleAwsEnv ⟨some "cat.jpg", some "image/jpeg", some 0⟩ 42
        (.ok "u")).1.status = 200 ∧
    (awsPostRoute sampleAwsEnv ⟨some "cat.jpg", some "image/jpeg", some 10485761⟩ 42
        (.ok "u")).1 =
      ⟨400, errBody "File size too large. Maximum size is 10MB."⟩ ∧
    ¬((awsPostRoute sampleAwsEnv ⟨some "cat.jpg", some "image/jpeg", some 10485760⟩ 42
        (.ok "u")).1 =
      ⟨400, errBody "File size too large. Maximum size is 10MB."⟩) := by
  refine ⟨?_, ?_, ?_, ?_, ?_⟩
  · exact size_ceiling_strict_truthiness_guarded.1 sampleAwsEnv sampleAwsConfig
      ⟨some "cat.jpg", some "image/jpeg", some 10485760⟩ 42 "u" rfl rfl rfl rfl rfl
  · exact size_ceiling_strict_truthiness_guarded.2.1 sampleAwsEnv sampleAwsConfig
      ⟨some "cat.jpg", some "image/jpeg", none⟩ 42 "u" rfl rfl rfl rfl (Or.inl rfl)
  · exact size_ceiling_strict_truthiness_guarded.2.1 sampleAwsEnv sampleAwsConfig
      ⟨some "cat.jpg", some "image/jpeg", some 0⟩ 42 "u" rfl rfl rfl rfl (Or.inr rfl)
  · exact (size_ceiling_strict_truthiness_guarded.2.2 sampleAwsEnv sampleAwsConfig
      ⟨some "cat.jpg", some "image/jpeg", some 10485761⟩ 42 "u" 10485761
      rfl rfl rfl rfl rfl).mpr (by refine ⟨by decide, by decide⟩)
  · intro h
    have := (size_ceiling_strict_truthiness_guarded.2.2 sampleAwsEnv sampleAwsConfig
      ⟨some "cat.jpg", some "image/jpeg", some 10485760⟩ 42 "u" 10485760
      rfl rfl rfl rfl rfl).mp h
    exact absurd this.2 (by decide)

end MultiCloud
